import Mathlib

/-!
Verification of the completion streaming and contract-enforcement pipeline
of the prompt-engineering repository.  JavaScript strings are modelled as
`List Char`; every definition mirrors one function of the TypeScript source
(`src/lib/openaiCompatible`, `src/lib/openaiCompatibleClient`,
`src/lib/chatShared.ts`, `src/lib/promptStability`,
`src/lib/promptGenerationEngine.ts`, `src/server/openaiCompatibleProxyPlugin.ts`,
`src/types.ts`, `src/constants.tsx`).
-/

set_option maxRecDepth 40000

namespace PromptPipeline

/-- Strings of the JavaScript runtime, modelled as lists of characters. -/
abbrev Str := List Char

/-- Character class of JavaScript whitespace (the set matched by `\s`,
`String.prototype.trim`, `trimStart` and `trimEnd`): WhiteSpace,
LineTerminator and the Unicode space separators. -/
def jsWhitespace (c : Char) : Bool :=
  c = ' ' ∨ c = '\t' ∨ c = '\n' ∨ c = '\x0b' ∨ c = '\x0c' ∨ c = '\r' ∨
  c = ' ' ∨ c = ' ' ∨
  (' ' ≤ c ∧ c ≤ ' ') ∨
  c = ' ' ∨ c = ' ' ∨ c = ' ' ∨ c = ' ' ∨
  c = '　' ∨ c = '﻿'

/-- JavaScript `String.prototype.trimStart`. -/
def jsTrimStart (s : Str) : Str := s.dropWhile jsWhitespace

/-- JavaScript `String.prototype.trimEnd`. -/
def jsTrimEnd (s : Str) : Str := (s.reverse.dropWhile jsWhitespace).reverse

/-- JavaScript `String.prototype.trim`. -/
def jsTrim (s : Str) : Str := jsTrimEnd (jsTrimStart s)

/-- Case-insensitive character comparison, as used by the `i` regex flag on
the ASCII content handled by this code base. -/
def ciCharEq (a b : Char) : Bool := a.toLower = b.toLower

/-- Case-insensitive "starts with" used when matching literal regex parts
under the `i` flag.  `startsWithCi pat s` holds when `s` begins with `pat`
up to case. -/
def startsWithCi : Str → Str → Bool
  | [], _ => true
  | _ :: _, [] => false
  | p :: ps, c :: cs => ciCharEq p c && startsWithCi ps cs

/-- Case-sensitive "starts with" (JavaScript `String.prototype.startsWith`). -/
def startsWithStr : Str → Str → Bool
  | [], _ => true
  | _ :: _, [] => false
  | p :: ps, c :: cs => (p = c : Bool) && startsWithStr ps cs

/-- Word characters of the regex `\w` class, used for `\b` boundaries. -/
def isWordChar (c : Char) : Bool :=
  ('a' ≤ c ∧ c ≤ 'z') ∨ ('A' ≤ c ∧ c ≤ 'Z') ∨ ('0' ≤ c ∧ c ≤ '9') ∨ c = '_'

/-- Decimal digit (`\d`). -/
def isDigitChar (c : Char) : Bool := '0' ≤ c ∧ c ≤ '9'

/-- Split a string at every occurrence of one character
(JavaScript `String.prototype.split` with a one-character separator). -/
def splitOnChar (sep : Char) : Str → List Str
  | [] => [[]]
  | c :: rest =>
    let tail := splitOnChar sep rest
    if c = sep then [] :: tail
    else
      match tail with
      | [] => [[c]]
      | t :: ts => (c :: t) :: ts

/-- Join a list of strings with a one-character separator
(JavaScript `Array.prototype.join`). -/
def joinWithChar (sep : Char) : List Str → Str
  | [] => []
  | [s] => s
  | s :: rest => s ++ sep :: joinWithChar sep rest

/-- Concatenation of a list of strings (JavaScript `join('')`). -/
def joinStrs : List Str → Str
  | [] => []
  | s :: rest => s ++ joinStrs rest

/-! ## Event Stream Decoder (`consumeSseEvents`, `src/api/_common` /
`src/lib/openaiCompatible`) -/

/-- Locate the first occurrence of the frame delimiter `"\n\n"`
(the `chunkBuffer.indexOf('\n\n', startIndex)` step of `consumeSseEvents`),
returning the text before the delimiter and the text after it. -/
def findDoubleNewlineSplit : Str → Option (Str × Str)
  | [] => none
  | [_] => none
  | c1 :: c2 :: rest =>
    if c1 = '\n' ∧ c2 = '\n' then some ([], rest)
    else
      match findDoubleNewlineSplit (c2 :: rest) with
      | none => none
      | some (pre, post) => some (c1 :: pre, post)

/-- Recursion core of the Event Stream Decoder loop.  The fuel argument is a
bound on the number of loop iterations; each iteration consumes a `"\n\n"`
delimiter, so `b.length` iterations always suffice. -/
def consumeSseEventsGo : Nat → Str → List Str × Str
  | 0, b => ([], b)
  | fuel + 1, b =>
    match findDoubleNewlineSplit b with
    | none => ([], b)
    | some (seg, rest) =>
      let p := consumeSseEventsGo fuel rest
      (if (jsTrim seg).isEmpty then p.1 else jsTrim seg :: p.1, p.2)

/-- The Event Stream Decoder: split the carry buffer at every `"\n\n"`
delimiter, emitting the trimmed non-empty frames in order and returning the
unconsumed remainder (`consumeSseEvents` of the source). -/
def consumeSseEvents (b : Str) : List Str × Str :=
  consumeSseEventsGo b.length b

/-! ## Data model (`src/types.ts`) and JSON values -/

/-- Values of the JavaScript runtime as received from `JSON.parse`, used to
model the `unknown` parameter of the payload parser. An absent object field
models `undefined`. -/
inductive JSValue where
  | vNull
  | vBool (b : Bool)
  | vNum (n : Int)
  | vStr (s : Str)
  | vArr (items : List JSValue)
  | vObj (fields : List (Str × JSValue))

/-- Property lookup on a list of object fields (first binding wins). -/
def lookupField : List (Str × JSValue) → Str → Option JSValue
  | [], _ => none
  | (k, x) :: rest, key => if k = key then some x else lookupField rest key

/-- Property access `value.key`; `none` models `undefined` (absent fields and
access on non-objects). -/
def getField (v : JSValue) (key : Str) : Option JSValue :=
  match v with
  | .vObj fields => lookupField fields key
  | _ => none

/-- The `TARGET_AGENTS` union of `src/types.ts`. -/
inductive TargetAgent where
  | universal
  | chatgpt
  | gemini
  | claudeCode
  | kiro
  | kimi
deriving DecidableEq

/-- The `TARGET_AGENTS` constant of `src/types.ts`, listing every declared
member of the `TargetAgent` type. -/
def TARGET_AGENTS : List TargetAgent :=
  [.universal, .chatgpt, .gemini, .claudeCode, .kiro, .kimi]

/-- The `PROMPT_STABILITY_PROFILES` union of `src/types.ts`. -/
inductive PromptStabilityProfile where
  | standard
  | strict
deriving DecidableEq

/-- The `PROMPT_GENERATION_MODES` union of `src/types.ts`. -/
inductive PromptGenerationMode where
  | simple
  | advanced
  | expert
deriving DecidableEq

/-- The `Message` interface of `src/types.ts`; the role is kept as the raw
string checked by `isMessage`. -/
structure Message where
  id : Str
  role : Str
  content : Str
deriving DecidableEq

/-! ## Request payload parsing (`src/lib/chatShared.ts`) -/

/-- The `isPromptGenerationMode` guard of `src/lib/chatShared.ts`. -/
def isPromptGenerationMode : JSValue → Bool
  | .vStr s =>
    s = ("simple").data ∨ s = ("advanced").data ∨ s = ("expert").data
  | _ => false

/-- The `isTargetAgent` guard of `src/lib/chatShared.ts`: it accepts exactly
`universal`, `gemini`, `claude-code`, `kiro` and `kimi` (note the absence of
`chatgpt`). -/
def isTargetAgent : JSValue → Bool
  | .vStr s =>
    s = ("universal").data ∨ s = ("gemini").data ∨ s = ("claude-code").data ∨
    s = ("kiro").data ∨ s = ("kimi").data
  | _ => false

/-- The `isMessage` guard of `src/lib/chatShared.ts`. -/
def isMessage (v : JSValue) : Bool :=
  match v with
  | .vNull | .vBool _ | .vNum _ | .vStr _ => false
  | _ =>
    (match getField v ("role").data with
     | some (.vStr r) => r = ("user").data ∨ r = ("assistant").data
     | _ => false) &&
    (match getField v ("id").data with
     | some (.vStr _) => true
     | _ => false) &&
    (match getField v ("content").data with
     | some (.vStr _) => true
     | _ => false)

/-- Read a validated message object into the typed `Message` record. -/
def toMessage (v : JSValue) : Message :=
  { id := match getField v ("id").data with
          | some (.vStr s) => s
          | _ => []
    role := match getField v ("role").data with
            | some (.vStr s) => s
            | _ => []
    content := match getField v ("content").data with
               | some (.vStr s) => s
               | _ => [] }

/-- Typed view of a validated mode string. -/
def modeOfValue : JSValue → Option PromptGenerationMode
  | .vStr s =>
    if s = ("simple").data then some .simple
    else if s = ("advanced").data then some .advanced
    else if s = ("expert").data then some .expert
    else none
  | _ => none

/-- Typed view of a validated target-agent string accepted by
`isTargetAgent`. -/
def targetAgentOfValue : JSValue → Option TargetAgent
  | .vStr s =>
    if s = ("universal").data then some .universal
    else if s = ("gemini").data then some .gemini
    else if s = ("claude-code").data then some .claudeCode
    else if s = ("kiro").data then some .kiro
    else if s = ("kimi").data then some .kimi
    else none
  | _ => none

/-- The runtime shape of the object built by `parseGenerateRequestPayload`.
The source builds `normalized` with only `messages`, `mode` and `targetAgent`
fields, so a later read of `normalized.stabilityProfile` yields `undefined`;
the extra field records that runtime fact. -/
structure GenerateRequestPayload where
  messages : List Message
  mode : Option PromptGenerationMode
  targetAgent : Option TargetAgent
  stabilityProfile : Option PromptStabilityProfile
deriving DecidableEq

/-- The `parseGenerateRequestPayload` function of `src/lib/chatShared.ts`. -/
def parseGenerateRequestPayload (v : JSValue) : Option GenerateRequestPayload :=
  match v with
  | .vNull | .vBool _ | .vNum _ | .vStr _ => none
  | _ =>
    match getField v ("messages").data with
    | some (.vArr msgs) =>
      if msgs.all isMessage then
        if (getField v ("mode").data).all isPromptGenerationMode then
          if (getField v ("targetAgent").data).all isTargetAgent then
            some { messages := msgs.map toMessage
                   mode := (getField v ("mode").data).bind modeOfValue
                   targetAgent := (getField v ("targetAgent").data).bind targetAgentOfValue
                   stabilityProfile := none }
          else none
        else none
      else none
    | _ => none

/-- The `resolveStabilityProfile` function of `src/lib/promptStability`:
honor a well-typed requested profile, otherwise fall back, defaulting to
`standard`. -/
def resolveStabilityProfile (requested fallback : Option PromptStabilityProfile) :
    PromptStabilityProfile :=
  match requested with
  | some p => p
  | none => if fallback = some .strict then .strict else .standard

/-! ## Streaming Request Executor (`src/lib/openaiCompatibleClient`) -/

/-- Errors thrown by the provider client (`ProviderRequestError` of the
source): message, optional HTTP status, and the transiency flag set by
`toProviderError`. -/
structure ProviderRequestError where
  message : Str
  statusCode : Option Nat
  transient : Bool
deriving DecidableEq

/-- The `toProviderError` constructor of `src/lib/openaiCompatibleClient`. -/
def toProviderError (message : Str) (statusCode : Option Nat) (transient : Bool) :
    ProviderRequestError :=
  { message := message, statusCode := statusCode, transient := transient }

/-- The `isTransientStatusCode` predicate: 408, 425, 429 or any status of at
least 500 is transient; a falsy status (absent or zero) is not. -/
def isTransientStatusCode : Option Nat → Bool
  | none => false
  | some s =>
    if s = 0 then false
    else s = 408 ∨ s = 425 ∨ s = 429 ∨ 500 ≤ s

/-- Alternatives of the `TRANSIENT_MESSAGE_PATTERN` regex. -/
def transientKeywords : List Str :=
  [("fetch failed").data, ("network").data, ("timed out").data,
   ("timeout").data, ("temporarily unavailable").data,
   ("connection reset").data, ("econnreset").data, ("socket hang up").data]

/-- One keyword occurrence at the head of `s` with a closing `\b` boundary
(the keywords end in word characters, so the next character must not be a
word character). -/
def keywordAt (k : Str) (s : Str) : Bool :=
  startsWithCi k s &&
  (match s.drop k.length with
   | [] => true
   | c :: _ => ¬isWordChar c)

/-- Scan for the `TRANSIENT_MESSAGE_PATTERN` keywords; `prevIsWord` tracks
whether the previous character is a word character, giving the opening `\b`
boundary (the keywords start with word characters). -/
def testTransientMessageAux (prevIsWord : Bool) (s : Str) : Bool :=
  ((!prevIsWord) && transientKeywords.any (fun k => keywordAt k s)) ||
  (match s with
   | [] => false
   | c :: rest => testTransientMessageAux (isWordChar c) rest)

/-- The `TRANSIENT_MESSAGE_PATTERN.test` call: case-insensitive search for a
word-bounded network/timeout keyword. -/
def testTransientMessagePattern (s : Str) : Bool :=
  testTransientMessageAux false s

/-- The `isTransientError` classifier of `src/lib/openaiCompatibleClient`:
an error is transient when its `transient` flag is set, or when its message
matches the network/timeout keyword pattern. -/
def isTransientError (e : ProviderRequestError) : Bool :=
  e.transient || testTransientMessagePattern e.message

/-- Stream events produced by the Completion Event Parser
(`OpenAICompatibleStreamEvent` of the source). -/
inductive StreamEvent where
  | chunk (text : Str)
  | done
  | error (message : Str)
deriving DecidableEq

/-- Text extraction for one entry of an array-valued `content` field
(`parseTextContent`, array branch). -/
def entryText : JSValue → Str
  | .vStr s => s
  | .vObj fields =>
    match lookupField fields ("text").data with
    | some (.vStr t) => t
    | _ => []
  | _ => []

/-- The `parseTextContent` helper: plain text, or a list of typed text
parts, joined; anything else contributes nothing. -/
def parseTextContent : Option JSValue → Str
  | some (.vStr s) => s
  | some (.vArr entries) => joinStrs (entries.map entryText)
  | _ => []

/-- The `parseErrorMessage` helper: a non-blank error string, or a non-blank
`message` field of an error object. -/
def parseErrorMessage : Option JSValue → Option Str
  | some (.vStr s) => if (jsTrim s).isEmpty then none else some s
  | some (.vObj fields) =>
    match lookupField fields ("message").data with
    | some (.vStr m) => if (jsTrim m).isEmpty then none else some m
    | _ => none
  | _ => none

/-- JavaScript truthiness, used for the `finish_reason` check. -/
def jsTruthy : JSValue → Bool
  | .vNull => false
  | .vBool b => b
  | .vNum n => n ≠ 0
  | .vStr s => ¬s.isEmpty
  | .vArr _ => true
  | .vObj _ => true

/-- Per-choice loop of the event parser: sum the delta-or-message text of
every choice and note whether any choice carries a `finish_reason`. -/
def processChoices : List JSValue → Str × Bool
  | [] => ([], false)
  | choice :: rest =>
    let deltaText := parseTextContent
      ((getField choice ("delta").data).bind (fun d => getField d ("content").data))
    let messageText := parseTextContent
      ((getField choice ("message").data).bind (fun m => getField m ("content").data))
    let here := if deltaText.isEmpty then messageText else deltaText
    let finished := match getField choice ("finish_reason").data with
      | some v => jsTruthy v
      | none => false
    let r := processChoices rest
    (here ++ r.1, finished || r.2)

/-- The Completion Event Parser (`parseOpenAICompatibleSseEvent`).  The
platform primitive `JSON.parse` is abstracted as the `jp` parameter
(`none` models a thrown parse error); all event-level logic is concrete.
JSON bodies deliver `choices` as an array; other shapes contribute no
choices. -/
def parseOpenAICompatibleSseEvent (jp : Str → Option JSValue) (rawEvent : Str) :
    Option StreamEvent :=
  let dataLines :=
    (((splitOnChar '\n' rawEvent).map jsTrimEnd).filter
      (fun l => startsWithStr ("data:").data l)).map
      (fun l => jsTrimStart (l.drop 5))
  if dataLines.isEmpty then none
  else
    let payload := joinWithChar '\n' dataLines
    if payload = ("[DONE]").data then some .done
    else
      match jp payload with
      | none => none
      | some parsed =>
        match parseErrorMessage (getField parsed ("error").data) with
        | some msg => some (.error msg)
        | none =>
          let choices := match getField parsed ("choices").data with
            | some (.vArr items) => items
            | _ => []
          let r := processChoices choices
          if ¬r.1.isEmpty then some (.chunk r.1)
          else if r.2 then some .done
          else none

/-- The `buffer.replace(/\r\n/g, '\n')` normalization applied on every
append. -/
def replaceCrLf : Str → Str
  | '\r' :: '\n' :: rest => '\n' :: replaceCrLf rest
  | c :: rest => c :: replaceCrLf rest
  | [] => []

/-- Connection-level outcome of one provider attempt, modelling the `fetch`
call of `requestOnce`: a thrown abort, another thrown connection failure, or
a response with status, optional streamed body and (for non-ok statuses) the
message extracted by `readErrorResponse`. -/
inductive ConnectionOutcome where
  | thrownAbort (timeoutMs : Nat)
  | thrownOther (message : Str)
  | response (status : Nat) (body : Option (List Str)) (errorMessage : Str)

/-- `Response.ok`: status in the 200-299 range. -/
def responseOk (status : Nat) : Bool := 200 ≤ status ∧ status < 300

/-- State of the read loop of `requestOnce`. -/
structure SseLoopState where
  doneSent : Bool
  fullText : Str

/-- Event-processing inner loop of `requestOnce`: accumulate chunk text,
throw on an error event (transient exactly when the message matches the
keyword pattern), and record a `[DONE]` sentinel. -/
def processEvents (jp : Str → Option JSValue) :
    List Str → SseLoopState → Except ProviderRequestError SseLoopState
  | [], st => .ok st
  | ev :: rest, st =>
    match parseOpenAICompatibleSseEvent jp ev with
    | none => processEvents jp rest st
    | some (.chunk t) => processEvents jp rest { st with fullText := st.fullText ++ t }
    | some (.error m) =>
      .error (toProviderError m none (testTransientMessagePattern m))
    | some .done => processEvents jp rest { st with doneSent := true }

/-- Read loop of `requestOnce`: append each received chunk to the carry
buffer, normalize CRLF, decode complete frames, process their events; at
stream end parse a non-blank leftover buffer, then return the accumulated
text, trimmed. -/
def streamLoop (jp : Str → Option JSValue) :
    List Str → Str → SseLoopState → Except ProviderRequestError Str
  | [], buffer, st =>
    if ¬st.doneSent ∧ ¬(jsTrim buffer).isEmpty then
      match parseOpenAICompatibleSseEvent jp (jsTrim buffer) with
      | some (.chunk t) => .ok (jsTrim (st.fullText ++ t))
      | some (.error m) =>
        .error (toProviderError m none (testTransientMessagePattern m))
      | _ => .ok (jsTrim st.fullText)
    else .ok (jsTrim st.fullText)
  | c :: rest, buffer, st =>
    let buffer2 := replaceCrLf (buffer ++ c)
    let consumed := consumeSseEvents buffer2
    match processEvents jp consumed.1 st with
    | .error e => .error e
    | .ok st2 => streamLoop jp rest consumed.2 st2

/-- One provider attempt (`requestOnce`): thrown connection failures are
transient; a non-ok response throws with the status-derived transiency; a
missing body is fatal; otherwise the SSE stream is decoded and accumulated. -/
def requestOnce (jp : Str → Option JSValue) (o : ConnectionOutcome) :
    Except ProviderRequestError Str :=
  match o with
  | .thrownAbort t =>
    .error (toProviderError
      (("Upstream request timed out after " ++ toString t ++ "ms.").data) none true)
  | .thrownOther m => .error (toProviderError m none true)
  | .response status body errMsg =>
    if ¬responseOk status then
      .error (toProviderError errMsg (some status) (isTransientStatusCode (some status)))
    else
      match body with
      | none =>
        .error (toProviderError ("No response stream returned by provider.").data none false)
      | some chunks => streamLoop jp chunks [] { doneSent := false, fullText := [] }

instance {ε α : Type} [DecidableEq ε] [DecidableEq α] : DecidableEq (Except ε α)
  | .ok a, .ok b =>
    if h : a = b then .isTrue (by rw [h])
    else .isFalse (fun hc => h (by injection hc))
  | .ok _, .error _ => .isFalse (fun hc => Except.noConfusion hc)
  | .error _, .ok _ => .isFalse (fun hc => Except.noConfusion hc)
  | .error a, .error b =>
    if h : a = b then .isTrue (by rw [h])
    else .isFalse (fun hc => h (by injection hc))

/-- Observable outcome of the full retry wrapper: final result, number of
attempts made, and the backoff sleeps performed between attempts. -/
structure CompletionRunResult where
  result : Except ProviderRequestError Str
  attemptsMade : Nat
  sleeps : List Nat
deriving DecidableEq

/-- Retry loop body of `requestOpenAICompatibleCompletion`; `remaining`
counts the loop iterations still permitted (the source's `for` loop runs
`attempt` from 1 to `maxAttempts`, and its trailing throw is unreachable). -/
def requestCompletionGo (jp : Str → Option JSValue)
    (attempts : Nat → ConnectionOutcome) (retryBaseDelayMs maxAttempts : Nat) :
    Nat → Nat → List Nat → CompletionRunResult
  | _, 0, sleeps =>
    { result := .error
        (toProviderError ("Provider request failed after retries.").data none false)
      attemptsMade := maxAttempts
      sleeps := sleeps }
  | attempt, remaining + 1, sleeps =>
    match requestOnce jp (attempts attempt) with
    | .ok s => { result := .ok s, attemptsMade := attempt, sleeps := sleeps }
    | .error e =>
      if maxAttempts ≤ attempt ∨ ¬(isTransientError e = true) then
        { result := .error e, attemptsMade := attempt, sleeps := sleeps }
      else
        requestCompletionGo jp attempts retryBaseDelayMs maxAttempts
          (attempt + 1) remaining (sleeps ++ [min (retryBaseDelayMs * attempt) 2000])

/-- The Streaming Request Executor (`requestOpenAICompatibleCompletion`):
`maxAttempts = max(1, maxRetries + 1)` attempts, retrying only transient
failures that are not on the last attempt, sleeping
`min(retryBaseDelayMs * attempt, 2000)` before each retry; each attempt
starts from a fresh `requestOnce` with no carried state. -/
def requestOpenAICompatibleCompletion (jp : Str → Option JSValue)
    (attempts : Nat → ConnectionOutcome) (maxRetries retryBaseDelayMs : Nat) :
    CompletionRunResult :=
  let maxAttempts := max 1 (maxRetries + 1)
  requestCompletionGo jp attempts retryBaseDelayMs maxAttempts 1 maxAttempts []

/-! ## Request Boundary Guard rate limiter
(`src/server/openaiCompatibleProxyPlugin.ts`) -/

/-- One entry of the fixed-window rate-limit store. -/
structure RateLimitEntry where
  count : Nat
  resetAt : Nat
deriving DecidableEq

/-- Result record returned by `checkRateLimit`; every response carries the
limit, the remaining count and the seconds until the window resets. -/
structure RateLimitResult where
  allowed : Bool
  retryAfterSeconds : Nat
  limit : Nat
  remaining : Nat
deriving DecidableEq

/-- The in-memory rate-limit store (`rateLimitStore` map), as an
insertion-ordered association list. -/
abbrev RateLimitStore := List (Str × RateLimitEntry)

/-- Map lookup on the store. -/
def lookupEntry : RateLimitStore → Str → Option RateLimitEntry
  | [], _ => none
  | (k, e) :: rest, key => if k = key then some e else lookupEntry rest key

/-- Map update (`rateLimitStore.set`): replace an existing binding in place,
or append a new one. -/
def setEntry : RateLimitStore → Str → RateLimitEntry → RateLimitStore
  | [], key, entry => [(key, entry)]
  | (k, e) :: rest, key, entry =>
    if k = key then (k, entry) :: rest else (k, e) :: setEntry rest key entry

/-- `Math.ceil(a / b)` on the non-negative quantities involved. -/
def ceilDiv (a b : Nat) : Nat := (a + b - 1) / b

/-- The `cleanupRateLimitStore` pruning step: once the store holds at least
2048 entries, drop every entry whose window has expired. -/
def cleanupRateLimitStore (now : Nat) (store : RateLimitStore) : RateLimitStore :=
  if store.length < 2048 then store
  else store.filter (fun kv => ¬(kv.2.resetAt ≤ now))

/-- The `checkRateLimit` fixed-window limiter, from the point where the
configured limit and window have been resolved and the client identity
derived: prune opportunistically, then create or reset the keyed entry when
absent or expired (`count = 1`), deny at the limit, and otherwise increment;
every result reports the remaining count and seconds until reset. -/
def checkRateLimit (store : RateLimitStore) (now : Nat)
    (keyPrefix clientIp : Str) (limit windowMs : Nat) :
    RateLimitResult × RateLimitStore :=
  let store1 := cleanupRateLimitStore now store
  let key := keyPrefix ++ (":").data ++ clientIp
  match lookupEntry store1 key with
  | none =>
    ({ allowed := true
       retryAfterSeconds := ceilDiv windowMs 1000
       limit := limit
       remaining := limit - 1 },
     setEntry store1 key { count := 1, resetAt := now + windowMs })
  | some current =>
    if current.resetAt ≤ now then
      ({ allowed := true
         retryAfterSeconds := ceilDiv windowMs 1000
         limit := limit
         remaining := limit - 1 },
       setEntry store1 key { count := 1, resetAt := now + windowMs })
    else if limit ≤ current.count then
      ({ allowed := false
         retryAfterSeconds := max (ceilDiv (current.resetAt - now) 1000) 1
         limit := limit
         remaining := 0 },
       store1)
    else
      ({ allowed := true
         retryAfterSeconds := max (ceilDiv (current.resetAt - now) 1000) 1
         limit := limit
         remaining := limit - (current.count + 1) },
       setEntry store1 key { count := current.count + 1, resetAt := current.resetAt })

/-! ## Output Contract Validator & Normalizer (`src/lib/promptStability`) -/

/-- The canonical core heading. -/
def FINAL_PROMPT_HEADING : Str := ("## Final Prompt (Universal Core)").data

/-- The canonical rationale heading. -/
def WHY_HEADING : Str := ("## Why This Prompt Is Powerful").data

/-- The canonical checklist heading. -/
def CHECKLIST_HEADING : Str := ("## Prompt Contract Checklist").data

/-- The `TARGET_AGENT_LABEL` table of `src/lib/promptStability`. -/
def TARGET_AGENT_LABEL : TargetAgent → Str
  | .universal => ("Universal").data
  | .chatgpt => ("ChatGPT").data
  | .gemini => ("Gemini").data
  | .claudeCode => ("Claude Code").data
  | .kiro => ("Kiro").data
  | .kimi => ("Kimi").data

/-- The adapter heading parameterized by the target agent. -/
def buildAdapterHeading (t : TargetAgent) : Str :=
  ("## Adapter Block (Target: ").data ++ TARGET_AGENT_LABEL t ++ (")").data

/-- The `REQUIRED_PROMPT_CONTRACT_ITEMS` schema of `src/constants.tsx`. -/
def REQUIRED_PROMPT_CONTRACT_ITEMS : List Str :=
  [("Role").data, ("Objective").data, ("Context").data, ("Constraints").data,
   ("Output Format").data, ("Quality Criteria").data, ("Failure Handling").data]

/-- The `normalizeLineEndings` replacement `/\r\n?/g` to `'\n'`. -/
def normalizeLineEndings : Str → Str
  | '\r' :: '\n' :: rest => '\n' :: normalizeLineEndings rest
  | '\r' :: rest => '\n' :: normalizeLineEndings rest
  | c :: rest => c :: normalizeLineEndings rest
  | [] => []

/-- The `/ /g` to space replacement. -/
def replaceNbsp (s : Str) : Str :=
  s.map (fun c => if c = '\u00A0' then ' ' else c)

/-- Space or tab, the `[ \t]` class. -/
def isSpaceOrTab (c : Char) : Bool := c = ' ' ∨ c = '\t'

/-- Scanner for the `/[ \t]+\n/g` to `'\n'` replacement; `pending` carries a
reversed run of spaces and tabs whose fate depends on the next character. -/
def stripTrailingWsGo : Str → Str → Str
  | pending, [] => pending.reverse
  | _pending, '\n' :: rest => '\n' :: stripTrailingWsGo [] rest
  | pending, c :: rest =>
    if isSpaceOrTab c then stripTrailingWsGo (c :: pending) rest
    else pending.reverse ++ c :: stripTrailingWsGo [] rest

/-- The `/[ \t]+\n/g` to `'\n'` replacement: drop spaces and tabs that sit
directly before a newline. -/
def stripTrailingWsBeforeNewline (s : Str) : Str := stripTrailingWsGo [] s

/-- Scanner for the `/\n{3,}/g` to `"\n\n"` replacement; `n` counts pending
consecutive newlines, emitted capped at two. -/
def collapseNewlinesGo : Nat → Str → Str
  | n, [] => List.replicate (min n 2) '\n'
  | n, '\n' :: rest => collapseNewlinesGo (n + 1) rest
  | n, c :: rest => List.replicate (min n 2) '\n' ++ c :: collapseNewlinesGo 0 rest

/-- The `/\n{3,}/g` to `"\n\n"` replacement: collapse runs of three or more
newlines to exactly two. -/
def collapseNewlineRuns (s : Str) : Str := collapseNewlinesGo 0 s

/-- Maximal `\s*` munch (the following literal always starts with a
non-whitespace character at the use sites, so greedy matching is exact). -/
def skipWs (s : Str) : Str := s.dropWhile jsWhitespace

/-- Consume `[^\n]*`: drop up to the next newline or the end. -/
def dropLine (s : Str) : Str := s.dropWhile (fun c => c ≠ '\n')

/-- Attempt one heading-variant match
`^#{1,3}\s*(alt1|alt2|...)[^\n]*$` (flags `gim`) at a line-start suffix:
one to three hashes, any whitespace (which under `m`-free `\s*` may cross
newlines), one of the alternatives case-insensitively, then the rest of that
line.  Returns the suffix after the match (at the line's newline or end). -/
def matchHeadingVariantAt (alts : List Str) (s : Str) : Option Str :=
  let hashes := s.takeWhile (fun c => c = '#')
  if hashes.length = 0 ∨ 3 < hashes.length then none
  else
    let afterWs := skipWs (s.drop hashes.length)
    if alts.any (fun a => startsWithCi a afterWs) then some (dropLine afterWs)
    else none

/-- Global scanner for one heading-rewrite pass: at every line start attempt
the variant match and substitute the canonical replacement, resuming after
the match.  The fuel is a bound on scanned characters (each step consumes at
least one). -/
def rewriteHeadingsGo (alts : List Str) (repl : Str) : Nat → Bool → Str → Str
  | 0, _, s => s
  | _ + 1, _, [] => []
  | fuel + 1, atLineStart, c :: rest =>
    if atLineStart then
      match matchHeadingVariantAt alts (c :: rest) with
      | some after => repl ++ rewriteHeadingsGo alts repl fuel false after
      | none => c :: rewriteHeadingsGo alts repl fuel (c = '\n') rest
    else c :: rewriteHeadingsGo alts repl fuel (c = '\n') rest

/-- One global heading-rewrite pass (`output.replace(headingVariantRegex,
canonicalHeading)`). -/
def rewriteHeadingLines (alts : List Str) (repl : Str) (s : Str) : Str :=
  rewriteHeadingsGo alts repl s.length true s

/-- Alternatives of the four heading-variant regexes of
`normalizeGeneratedPromptOutput`. -/
def finalPromptAlts : List Str := [("final prompt").data]

/-- Adapter heading variants. -/
def adapterAlts : List Str :=
  [("adapter block").data, ("target adapter").data, ("adapter").data]

/-- Rationale heading variants. -/
def whyAlts : List Str :=
  [("why this prompt is powerful").data, ("why this prompt works").data,
   ("optimization notes").data]

/-- Checklist heading variants. -/
def checklistAlts : List Str :=
  [("prompt contract checklist").data, ("contract checklist").data,
   ("quality checklist").data]

/-- Backtracking `\s*$` step: consume the longest whitespace prefix that
leaves the position at the end of the string or directly before a newline;
`none` when no prefix length works.  Returns the remainder. -/
def wsEatCandidates (r : Str) : Nat → Option Str
  | 0 =>
    if r = [] ∨ r.head? = some '\n' then some r else none
  | w + 1 =>
    let rem := r.drop (w + 1)
    if rem = [] ∨ rem.head? = some '\n' then some rem else wsEatCandidates r w

/-- The `\s*$` tail of the adapter-heading regex. -/
def wsEatToLineEnd (r : Str) : Option Str :=
  wsEatCandidates r (r.takeWhile jsWhitespace).length

/-- Backtracking search for `[^\n]+\)` inside `tryContent`: candidate `)`
positions on the current line, tried from the rightmost; on success the
`\s*$` tail must also match. -/
def tryParenDesc (r : Str) : Nat → Option Str
  | 0 => none
  | i + 1 =>
    if r.get? (i + 1) = some ')' then
      match wsEatToLineEnd (r.drop (i + 2)) with
      | some rem => some rem
      | none => tryParenDesc r i
    else tryParenDesc r i

/-- The `[^\n]+\)\s*$` tail of the adapter-heading regex at a fixed start. -/
def tryContent (r : Str) : Option Str :=
  match (r.takeWhile (fun c => c ≠ '\n')).length with
  | 0 => none
  | n + 1 => tryParenDesc r n

/-- Backtracking over the `\s*` between `Target:` and the content, from the
maximal whitespace prefix down. -/
def adapterTailFromW (t : Str) : Nat → Option Str
  | 0 =>
    tryContent t
  | w + 1 =>
    match tryContent (t.drop (w + 1)) with
    | some rem => some rem
    | none => adapterTailFromW t w

/-- The `\s*[^\n]+\)\s*$` tail of the adapter-heading regex. -/
def adapterTail (t : Str) : Option Str :=
  adapterTailFromW t (t.takeWhile jsWhitespace).length

/-- One attempt of the `adapterHeadingPattern`
`/^##\s*Adapter Block \(Target:\s*[^\n]+\)\s*$/im` at a line-start suffix,
returning the suffix after the matched span. -/
def matchAdapterHeadingAt (s : Str) : Option Str :=
  match s with
  | '#' :: '#' :: rest =>
    let afterWs := skipWs rest
    if startsWithCi ("Adapter Block (Target:").data afterWs then
      adapterTail (afterWs.drop ("Adapter Block (Target:").data.length)
    else none
  | _ => none

/-- Existence test for `adapterHeadingPattern` (`.test`). -/
def testAdapterHeadingGo : Nat → Bool → Str → Bool
  | 0, _, _ => false
  | _ + 1, _, [] => false
  | fuel + 1, atLineStart, c :: rest =>
    (atLineStart && (matchAdapterHeadingAt (c :: rest)).isSome) ||
    testAdapterHeadingGo fuel (c = '\n') rest

/-- The `adapterHeadingPattern.test(output)` guard. -/
def testAdapterHeading (s : Str) : Bool := testAdapterHeadingGo s.length true s

/-- First-occurrence replacement for `adapterHeadingPattern` (a `replace`
with no `g` flag). -/
def replaceFirstAdapterHeadingGo (repl : Str) : Nat → Bool → Str → Str
  | 0, _, s => s
  | _ + 1, _, [] => []
  | fuel + 1, atLineStart, c :: rest =>
    if atLineStart then
      match matchAdapterHeadingAt (c :: rest) with
      | some after => repl ++ after
      | none => c :: replaceFirstAdapterHeadingGo repl fuel (c = '\n') rest
    else c :: replaceFirstAdapterHeadingGo repl fuel (c = '\n') rest

/-- The `output.replace(adapterHeadingPattern, buildAdapterHeading(...))`
step. -/
def replaceFirstAdapterHeading (repl : Str) (s : Str) : Str :=
  replaceFirstAdapterHeadingGo repl s.length true s

/-- Match the `##\s*Final Prompt\s*\(Universal Core\)` header (shared by the
section extractor and the fence rewrite), returning the suffix after it. -/
def matchFinalPromptHeader (s : Str) : Option Str :=
  match s with
  | '#' :: '#' :: rest =>
    let r1 := skipWs rest
    if startsWithCi ("Final Prompt").data r1 then
      let r2 := skipWs (r1.drop ("Final Prompt").data.length)
      if startsWithCi ("(Universal Core)").data r2 then
        some (r2.drop ("(Universal Core)").data.length)
      else none
    else none
  | _ => none

/-- Backtracking `\s*\n` step: consume the longest whitespace prefix whose
next character is a newline, then that newline. -/
def wsNlDesc (r : Str) : Nat → Option Str
  | 0 => if r.head? = some '\n' then some (r.drop 1) else none
  | w + 1 =>
    if r.get? (w + 1) = some '\n' then some (r.drop (w + 2)) else wsNlDesc r w

/-- The `\s*\n` part of the fence-rewrite regex. -/
def wsThenNewline (r : Str) : Option Str :=
  wsNlDesc r (r.takeWhile jsWhitespace).length

/-- One attempt of the fence-rewrite regex
`/(##\s*Final Prompt\s*\(Universal Core\)\s*\n)```(?!text|txt|markdown)([^\n]*)\n/i`
at a suffix, returning the captured group 1 and the suffix after the whole
match. -/
def matchFenceSiteAt (s : Str) : Option (Str × Str) :=
  match matchFinalPromptHeader s with
  | none => none
  | some afterHeader =>
    match wsThenNewline afterHeader with
    | none => none
    | some afterNl =>
      let group1 := s.take (s.length - afterNl.length)
      match afterNl with
      | '`' :: '`' :: '`' :: tagRest =>
        if startsWithCi ("text").data tagRest ∨ startsWithCi ("txt").data tagRest ∨
           startsWithCi ("markdown").data tagRest then none
        else
          let tag := tagRest.takeWhile (fun c => c ≠ '\n')
          match tagRest.drop tag.length with
          | '\n' :: afterMatch => some (group1, afterMatch)
          | _ => none
      | _ => none

/-- First-match scanner of the fence rewrite, substituting
`'$1```text\n'`. -/
def rewriteFirstFenceGo : Nat → Str → Str
  | 0, s => s
  | _ + 1, [] => []
  | fuel + 1, c :: rest =>
    match matchFenceSiteAt (c :: rest) with
    | some (g1, after) => g1 ++ ("```text\n").data ++ after
    | none => c :: rewriteFirstFenceGo fuel rest

/-- The fence-normalization step: rewrite the first code fence directly
under the core heading to the `text` tag when it uses none or an
unrecognized one. -/
def rewriteFirstFenceAfterFinalPromptHeading (s : Str) : Str :=
  rewriteFirstFenceGo s.length s

/-- The `normalizeGeneratedPromptOutput` pipeline of
`src/lib/promptStability`, staged exactly as in the source. -/
def normalizeGeneratedPromptOutput (rawOutput : Str) (targetAgent : TargetAgent) : Str :=
  let o1 := jsTrim (normalizeLineEndings rawOutput)
  let o2 := jsTrim (collapseNewlineRuns (stripTrailingWsBeforeNewline (replaceNbsp o1)))
  let o3 := rewriteHeadingLines finalPromptAlts FINAL_PROMPT_HEADING o2
  let o4 := rewriteHeadingLines adapterAlts (buildAdapterHeading targetAgent) o3
  let o5 := rewriteHeadingLines whyAlts WHY_HEADING o4
  let o6 := rewriteHeadingLines checklistAlts CHECKLIST_HEADING o5
  let o7 :=
    if testAdapterHeading o6 then
      replaceFirstAdapterHeading (buildAdapterHeading targetAgent) o6
    else o6
  let o8 := rewriteFirstFenceAfterFinalPromptHeading o7
  jsTrim o8

/-- Lookahead `(?=\n##\s+[^\n]+)` of the section-extraction regex: a
newline, two hashes, at least one whitespace character, and then (possibly
after further newline whitespace absorbed by `\s+`) some character other
than a newline. -/
def existsNonNewlineHead : Str → Bool
  | [] => false
  | '\n' :: rest => existsNonNewlineHead rest
  | _ :: _ => true

/-- Test the next-heading lookahead at the current suffix. -/
def lookAheadNextHeading : Str → Bool
  | '\n' :: '#' :: '#' :: c :: rest => jsWhitespace c && existsNonNewlineHead rest
  | _ => false

/-- Lazy `[\s\S]*?` walk of the section extractor: take characters until the
next-heading lookahead holds or only the trailing all-whitespace suffix of
length `stopLen` remains (the `\s*$` alternative); `rem` tracks the current
suffix length. -/
def takeUntilSectionEnd (stopLen : Nat) : Nat → Str → Str
  | _, [] => []
  | rem, c :: rest =>
    if rem ≤ stopLen then []
    else if lookAheadNextHeading (c :: rest) then []
    else c :: takeUntilSectionEnd stopLen (rem - 1) rest

/-- Scanner of `extractFinalPromptSection`: find the first position where
the core-heading header matches and cut the section there. -/
def extractFinalPromptSectionGo : Nat → Str → Option Str
  | 0, _ => none
  | _ + 1, [] => none
  | fuel + 1, c :: rest =>
    match matchFinalPromptHeader (c :: rest) with
    | some afterHeader =>
      let s := c :: rest
      let headerLen := s.length - afterHeader.length
      let twsLen := (afterHeader.reverse.takeWhile jsWhitespace).length
      some (s.take headerLen ++
        takeUntilSectionEnd twsLen afterHeader.length afterHeader)
    | none => extractFinalPromptSectionGo fuel rest

/-- The `extractFinalPromptSection` helper: text from the core heading up to
the next heading line or the trailing whitespace, the empty string when the
heading is absent. -/
def extractFinalPromptSection (s : Str) : Str :=
  match extractFinalPromptSectionGo s.length s with
  | some sec => sec
  | none => []

/-- One closing-fence search (lazy `([\s\S]*?)` up to the first
triple-backtick). -/
def splitAtTripleBacktick : Str → Option (Str × Str)
  | [] => none
  | [_] => none
  | [_, _] => none
  | c1 :: c2 :: c3 :: rest =>
    if c1 = '`' ∧ c2 = '`' ∧ c3 = '`' then some ([], rest)
    else
      match splitAtTripleBacktick (c2 :: c3 :: rest) with
      | none => none
      | some (pre, post) => some (c1 :: pre, post)

/-- One fence-tag alternative of
`/```(?:text|txt|markdown)?\n([\s\S]*?)```/i`: the tag, a newline, then the
lazily captured body up to the first closing fence. -/
def tryTag (tag : Str) (r : Str) : Option Str :=
  if startsWithCi tag r then
    match r.drop tag.length with
    | '\n' :: content =>
      match splitAtTripleBacktick content with
      | some (grp, _) => some grp
      | none => none
    | _ => none
  else none

/-- The ordered alternatives of the optional fence tag. -/
def tryFenceTags (r : Str) : Option Str :=
  match tryTag ("text").data r with
  | some grp => some grp
  | none =>
    match tryTag ("txt").data r with
    | some grp => some grp
    | none =>
      match tryTag ("markdown").data r with
      | some grp => some grp
      | none => tryTag [] r

/-- Scanner for the first code-block match, advancing one character when a
fence start fails to complete. -/
def findCodeBlockGo : Nat → Str → Option Str
  | 0, _ => none
  | _ + 1, [] => none
  | fuel + 1, c :: rest =>
    if c = '`' ∧ startsWithStr ("``").data rest then
      match tryFenceTags (rest.drop 2) with
      | some content => some content
      | none => findCodeBlockGo fuel rest
    else findCodeBlockGo fuel rest

/-- First match of the code-block regex, returning its captured body. -/
def findCodeBlock (s : Str) : Option Str := findCodeBlockGo s.length s

/-- The `extractCorePromptText` helper: the (truthy) captured body of the
first code block of the core section when one exists, otherwise the trimmed
section or whole document. -/
def extractCorePromptText (value : Str) : Str :=
  let finalPromptSection := extractFinalPromptSection value
  let codeBlockSource :=
    if finalPromptSection.isEmpty then value else finalPromptSection
  match findCodeBlock codeBlockSource with
  | some grp => if grp.isEmpty then jsTrim codeBlockSource else jsTrim grp
  | none => jsTrim codeBlockSource

/-- The `\s*$` tail of the per-heading validation regex
`^<heading>\s*$` (flags `im`): whitespace until a line end. -/
def wsThenLineEnd : Str → Bool
  | [] => true
  | '\n' :: _ => true
  | c :: rest => jsWhitespace c && wsThenLineEnd rest

/-- One heading-regex attempt at a line start. -/
def headingLineMatchAt (heading : Str) (s : Str) : Bool :=
  startsWithCi heading s && wsThenLineEnd (s.drop heading.length)

/-- Existence scan of the per-heading validation regex over line starts. -/
def testHeadingAux (heading : Str) : Bool → Str → Bool
  | _, [] => false
  | atStart, c :: rest =>
    (atStart && headingLineMatchAt heading (c :: rest)) ||
    testHeadingAux heading (c = '\n') rest

/-- The `headingRegex.test(output)` check of the validator. -/
def testHeadingLine (heading : Str) (s : Str) : Bool := testHeadingAux heading true s

/-- Core of one contract-item attempt after the `(^|\n)` anchor:
`\s*(?:[-*]|\d+[.)])?\s*<item>\s*:` with the optional bullet or number
prefix. -/
def itemCore (item : Str) (r : Str) : Bool :=
  startsWithCi item r &&
  (match skipWs (r.drop item.length) with
   | ':' :: _ => true
   | _ => false)

/-- One contract-item attempt at a candidate content position. -/
def itemMatchAt (item : Str) (s : Str) : Bool :=
  let r1 := skipWs s
  let r2 :=
    match r1 with
    | '-' :: rest => skipWs rest
    | '*' :: rest => skipWs rest
    | c :: rest =>
      if isDigitChar c then
        let digits := (c :: rest).takeWhile isDigitChar
        match (c :: rest).drop digits.length with
        | '.' :: rest2 => skipWs rest2
        | ')' :: rest2 => skipWs rest2
        | _ => r1
      else r1
    | [] => r1
  itemCore item r2

/-- Existence scan of the contract-item regex over the `(^|\n)` candidate
positions. -/
def testItemAux (item : Str) : Bool → Str → Bool
  | _, [] => false
  | atCand, c :: rest =>
    (atCand && itemMatchAt item (c :: rest)) || testItemAux item (c = '\n') rest

/-- The `itemRegex.test(promptBody)` check of the validator. -/
def testContractItem (item : Str) (s : Str) : Bool := testItemAux item true s

/-- The `PromptOutputValidationResult` record of `src/lib/promptStability`. -/
structure PromptOutputValidationResult where
  isValid : Bool
  missingHeadings : List Str
  missingContractItems : List Str
  missingTextCodeBlock : Bool
deriving DecidableEq

/-- The `validateGeneratedPromptOutput` validator: line-anchored
case-insensitive presence of the four canonical headings, a fenced code
block inside the core section, and the seven labelled contract lines inside
the contract body, with the miss-lists collected in schema order. -/
def validateGeneratedPromptOutput (output : Str) (targetAgent : TargetAgent) :
    PromptOutputValidationResult :=
  let requiredHeadings :=
    [FINAL_PROMPT_HEADING, buildAdapterHeading targetAgent, WHY_HEADING,
     CHECKLIST_HEADING]
  let missingHeadings := requiredHeadings.filter (fun h => ¬testHeadingLine h output)
  let finalPromptSection := extractFinalPromptSection output
  let codeBlockMatch := findCodeBlock finalPromptSection
  let missingTextCodeBlock := codeBlockMatch.isNone
  let promptBody := extractCorePromptText output
  let missingContractItems :=
    REQUIRED_PROMPT_CONTRACT_ITEMS.filter (fun item => ¬testContractItem item promptBody)
  { isValid := missingHeadings.isEmpty && missingContractItems.isEmpty &&
      ¬missingTextCodeBlock
    missingHeadings := missingHeadings
    missingContractItems := missingContractItems
    missingTextCodeBlock := missingTextCodeBlock }

/-- The `truncate` helper of `src/lib/promptStability`. -/
def truncate (value : Str) (maxChars : Nat) : Str :=
  if value.length ≤ maxChars then value
  else value.take maxChars ++ ("\n...[truncated]").data

/-- The `/```/g` escaping applied to the fallback draft extract
(each triple backtick becomes two backticks, a backslash and a backtick). -/
def replaceTripleBackticks : Str → Str
  | '`' :: '`' :: '`' :: rest =>
    '`' :: '`' :: '\\' :: '`' :: replaceTripleBackticks rest
  | c :: rest => c :: replaceTripleBackticks rest
  | [] => []

/-- Join with multi-character separator (`Array.prototype.join`). -/
def joinWithStr (sep : Str) : List Str → Str
  | [] => []
  | [s] => s
  | s :: rest => s ++ sep ++ joinWithStr sep rest

/-- The `buildFallbackCanonicalOutput` synthesizer: the canonical artifact
template with the truncated user request interpolated into the Objective
line and the backtick-escaped truncated draft extract appended as draft
context. -/
def buildFallbackCanonicalOutput (draftOutput userRequest : Str)
    (targetAgent : TargetAgent) : Str :=
  let draftCore := truncate (extractCorePromptText draftOutput) 6000
  let safeDraftCore := replaceTripleBackticks draftCore
  let trimmedReq := jsTrim userRequest
  let conciseUserRequest :=
    truncate (if trimmedReq.isEmpty then ("General user request").data else trimmedReq) 500
  joinWithChar '\n'
    [FINAL_PROMPT_HEADING,
     ("```text").data,
     ("Role: Senior Prompt Engineer for cross-model reliability.").data,
     ("Objective: Transform user intent into a production-ready prompt artifact. (").data
       ++ conciseUserRequest ++ (")").data,
     ("Context: Multi-provider usage (Gemini, Claude Code, Kiro, Kimi, and OpenAI-compatible models).").data,
     ("Constraints: Keep output deterministic, portable, concise, and low-ambiguity; avoid provider-only syntax.").data,
     ("Output Format: Return structured markdown sections exactly as required by schema.").data,
     ("Quality Criteria: Clarity, completeness, transferability, measurable constraints, and low hallucination risk.").data,
     ("Failure Handling: If context is missing, ask explicit follow-up questions before final assumptions.").data,
     [],
     ("Draft Context (for refinement):").data,
     (if safeDraftCore.isEmpty then ("No draft content available.").data else safeDraftCore),
     ("```").data,
     buildAdapterHeading targetAgent,
     ("```text").data,
     ("Apply only target-specific tuning while preserving the universal core contract.").data,
     ("Do not remove required sections or labels.").data,
     ("```").data,
     WHY_HEADING,
     ("- Enforces a deterministic schema across providers.").data,
     ("- Preserves role/objective/constraints to reduce ambiguity.").data,
     ("- Adds explicit failure handling for missing context.").data,
     CHECKLIST_HEADING,
     ("- Role: Yes").data,
     ("- Objective: Yes").data,
     ("- Context: Yes").data,
     ("- Constraints: Yes").data,
     ("- Output Format: Yes").data,
     ("- Quality Criteria: Yes").data,
     ("- Failure Handling: Yes").data]

/-- The `formatValidationIssues` helper. -/
def formatValidationIssues (v : PromptOutputValidationResult) : Str :=
  joinWithChar '\n'
    ((if ¬v.missingHeadings.isEmpty then
        [("Missing headings: ").data ++ joinWithStr (", ").data v.missingHeadings]
      else []) ++
     (if ¬v.missingContractItems.isEmpty then
        [("Missing prompt contract labels: ").data ++
          joinWithStr (", ").data v.missingContractItems]
      else []) ++
     (if v.missingTextCodeBlock then
        [("Final Prompt section must include a fenced code block using ```text.").data]
      else []))

/-- The `REPAIR_MODEL_SYSTEM_PROMPT` constant. -/
def REPAIR_MODEL_SYSTEM_PROMPT : Str :=
  ("You are a deterministic formatter.\nYour only task is to rewrite the provided draft to satisfy the exact response schema.\nDo not add new top-level sections beyond the required schema.\nKeep wording concise, technical, and production-ready.").data

/-- The `buildRepairInstruction` pair of deterministic-formatter messages. -/
def buildRepairInstruction (targetAgent : TargetAgent)
    (stabilityProfile : PromptStabilityProfile) (originalOutput : Str)
    (validation : PromptOutputValidationResult) : Str × Str :=
  let schema := joinWithChar '\n'
    [FINAL_PROMPT_HEADING, buildAdapterHeading targetAgent, WHY_HEADING,
     CHECKLIST_HEADING]
  let profileName : Str :=
    match stabilityProfile with
    | .standard => ("standard").data
    | .strict => ("strict").data
  let issues := formatValidationIssues validation
  let user := joinWithChar '\n'
    [("Stability profile: ").data ++ profileName ++ (".").data,
     ("Rewrite the draft so it strictly matches the schema below.").data,
     ("Keep the intent and quality, but make format deterministic and compact.").data,
     [],
     ("Required schema (exact headings and order):").data,
     schema,
     [],
     ("Prompt contract labels that MUST exist inside the Final Prompt code block:").data,
     joinWithStr (", ").data REQUIRED_PROMPT_CONTRACT_ITEMS,
     [],
     ("Detected issues to fix:").data,
     (if issues.isEmpty then ("No issues listed.").data else issues),
     [],
     ("Draft to repair:").data,
     ("```markdown").data,
     truncate originalOutput 12000,
     ("```").data]
  (REPAIR_MODEL_SYSTEM_PROMPT, user)

/-! ## Generation engine (`src/lib/promptGenerationEngine.ts`) -/

/-- Environment source (`envSource` merged with `process.env`), as an
association list. -/
abbrev EnvSource := List (Str × Str)

/-- Environment lookup. -/
def lookupEnv : EnvSource → Str → Option Str
  | [], _ => none
  | (k, v) :: rest, key => if k = key then some v else lookupEnv rest key

/-- The `readEnvValue` helper: a trimmed non-empty environment value. -/
def readEnvValue (env : EnvSource) (key : Str) : Option Str :=
  match lookupEnv env key with
  | none => none
  | some raw =>
    let t := jsTrim raw
    if t.isEmpty then none else some t

/-- The `isTruthy` helper (`1`, `true` or `yes`, case-insensitively). -/
def isTruthy : Option Str → Bool
  | none => false
  | some s =>
    let n := (jsTrim s).map Char.toLower
    n = ("1").data ∨ n = ("true").data ∨ n = ("yes").data

/-- The `DEFAULT_PROMPT_STABILITY_PROFILE` constant of `src/constants.tsx`. -/
def DEFAULT_PROMPT_STABILITY_PROFILE : PromptStabilityProfile := .standard

/-- The `DEFAULT_TARGET_AGENT` constant of `src/constants.tsx`. -/
def DEFAULT_TARGET_AGENT : TargetAgent := .universal

/-- The `getDefaultStabilityProfileFromEnv` resolution. -/
def getDefaultStabilityProfileFromEnv (env : EnvSource) : PromptStabilityProfile :=
  let configured := readEnvValue env ("PROMPT_STABILITY_PROFILE").data
  if configured = some ("strict").data then .strict
  else if configured = some ("standard").data then .standard
  else if isTruthy (readEnvValue env ("PROMPT_FORCE_STRICT_MODE").data) then .strict
  else DEFAULT_PROMPT_STABILITY_PROFILE

/-- The `shouldUseAutoRepair` gate. -/
def shouldUseAutoRepair (env : EnvSource) : Bool :=
  ¬isTruthy (readEnvValue env ("PROMPT_AUTO_REPAIR_DISABLE").data)

/-- Provider configuration resolved from the environment. -/
structure ProviderConfig where
  apiKey : Option Str
  model : Str
  url : Str
deriving DecidableEq

/-- The `/\/+$/` strip applied to the base URL. -/
def stripTrailingSlashes (s : Str) : Str :=
  (s.reverse.dropWhile (fun c => c = '/')).reverse

/-- JavaScript `String.prototype.endsWith`. -/
def endsWithStr (suffix s : Str) : Bool := startsWithStr suffix.reverse s.reverse

/-- The `getOpenAICompatibleConfig` resolution, which throws when neither
URL variable is configured. -/
def getOpenAICompatibleConfig (env : EnvSource) : Except Str ProviderConfig :=
  let directUrl := readEnvValue env ("OPENAI_COMPATIBLE_URL").data
  let baseUrl := readEnvValue env ("OPENAI_COMPATIBLE_BASE_URL").data
  match directUrl, baseUrl with
  | none, none =>
    .error ("Missing OPENAI_COMPATIBLE_URL or OPENAI_COMPATIBLE_BASE_URL.").data
  | _, _ =>
    let url :=
      match directUrl with
      | some u => u
      | none =>
        match baseUrl.map stripTrailingSlashes with
        | some nb =>
          if endsWithStr ("/v1/chat/completions").data nb then nb
          else nb ++ ("/v1/chat/completions").data
        | none => []
    let apiKey :=
      match readEnvValue env ("OPENAI_COMPATIBLE_API_KEY").data with
      | some k => some k
      | none => readEnvValue env ("OPENAI_API_KEY").data
    let model :=
      match readEnvValue env ("OPENAI_COMPATIBLE_MODEL").data with
      | some m => m
      | none =>
        match readEnvValue env ("OPENAI_MODEL").data with
        | some m => m
        | none => ("gpt-4o-mini").data
    .ok { apiKey := apiKey, model := model, url := url }

/-- The `getLastUserMessage` helper: the trimmed content of the most recent
user message. -/
def getLastUserMessage (messages : List Message) : Str :=
  match messages.reverse.find? (fun m => m.role = ("user").data) with
  | some m => jsTrim m.content
  | none => []

/-- Result record of `generatePromptArtifact`. -/
structure GeneratePromptArtifactResult where
  output : Str
  stabilityProfile : PromptStabilityProfile
  repaired : Bool
  validation : PromptOutputValidationResult
deriving DecidableEq

/-- The auto-repair block of `generatePromptArtifact` (the
`if (!validation.isValid && shouldUseAutoRepair(envSource))` statement
with its `try`/`catch`): returns the current output and validation, the
`repaired` flag and the number of repair-call invocations.  The repair
instruction built by `buildRepairInstruction` feeds only the abstracted
repair call; a failed call is swallowed, keeping the prior output and
validation. -/
def repairStage (env : EnvSource) (targetAgent : TargetAgent)
    (repairCall : Except ProviderRequestError Str) (output1 : Str)
    (validation1 : PromptOutputValidationResult) :
    Str × PromptOutputValidationResult × Bool × Nat :=
  if (!validation1.isValid && shouldUseAutoRepair env) = true then
    match repairCall with
    | .ok repairedOutput =>
      let o := normalizeGeneratedPromptOutput repairedOutput targetAgent
      (o, validateGeneratedPromptOutput o targetAgent, true, 1)
    | .error _ => (output1, validation1, false, 1)
  else (output1, validation1, false, 0)

/-- The canonical-fallback block of `generatePromptArtifact` (the final
`if (!validation.isValid)` statement): when still invalid, synthesize the
fallback from the current output and the last user message, normalize it
and re-validate. -/
def fallbackStage (contextMessages : List Message) (targetAgent : TargetAgent)
    (output2 : Str) (validation2 : PromptOutputValidationResult) :
    Str × PromptOutputValidationResult :=
  if (!validation2.isValid) = true then
    let fb := normalizeGeneratedPromptOutput
      (buildFallbackCanonicalOutput output2
        (getLastUserMessage contextMessages) targetAgent) targetAgent
    (fb, validateGeneratedPromptOutput fb targetAgent)
  else (output2, validation2)

/-- The `generatePromptArtifact` orchestration of
`src/lib/promptGenerationEngine.ts`.  The two provider completions (the
initial call and the repair call, each already wrapped in the retrying
executor) are supplied as `Except` outcomes; request assembly
(instruction text, temperature, timeouts) feeds only those abstracted calls.
The returned number counts repair invocations: normalize and validate the
initial output, run the auto-repair stage, then the canonical-fallback
stage. -/
def generatePromptArtifact (env : EnvSource) (payload : GenerateRequestPayload)
    (contextMessages : List Message)
    (initialCall repairCall : Except ProviderRequestError Str) :
    Except ProviderRequestError (GeneratePromptArtifactResult × Nat) :=
  match getOpenAICompatibleConfig env with
  | .error msg => .error (toProviderError msg none false)
  | .ok _providerConfig =>
    let targetAgent := payload.targetAgent.getD DEFAULT_TARGET_AGENT
    let stabilityProfile := resolveStabilityProfile payload.stabilityProfile
      (some (getDefaultStabilityProfileFromEnv env))
    match initialCall with
    | .error e => .error e
    | .ok raw =>
      let output1 := normalizeGeneratedPromptOutput raw targetAgent
      let validation1 := validateGeneratedPromptOutput output1 targetAgent
      let r := repairStage env targetAgent repairCall output1 validation1
      let f := fallbackStage contextMessages targetAgent r.1 r.2.1
      .ok ({ output := f.1
             stabilityProfile := stabilityProfile
             repaired := r.2.2.1
             validation := f.2 }, r.2.2.2)

/-! ## Concrete inputs used by the claim theorems and witnesses -/

/-- A message object of the inbound JSON shape. -/
def msgObj : JSValue :=
  .vObj [(("id").data, .vStr ("m1").data), (("role").data, .vStr ("user").data),
         (("content").data, .vStr ("hi").data)]

/-- A request body that selects the `chatgpt` target agent. -/
def chatgptFields : List (Str × JSValue) :=
  [(("messages").data, .vArr [msgObj]),
   (("targetAgent").data, .vStr ("chatgpt").data)]

/-- A request body that selects the `strict` stability profile. -/
def strictProfileBody : JSValue :=
  .vObj [(("messages").data, .vArr [msgObj]),
         (("stabilityProfile").data, .vStr ("strict").data)]

/-- The payload produced by parsing `strictProfileBody`. -/
def strictProfileParsed : GenerateRequestPayload :=
  { messages := [{ id := ("m1").data, role := ("user").data, content := ("hi").data }]
    mode := none
    targetAgent := none
    stabilityProfile := none }

/-- Input on which normalization is not idempotent: two core headings, each
followed by a `js`-tagged fence; one application rewrites only the first. -/
def repeatedFenceInput : Str :=
  ("## Final Prompt (Universal Core)\n```js\na\n```\n## Final Prompt (Universal Core)\n```js\nb\n```").data

/-- The model-variant draft exercised by the repository's own
`promptStability` test. -/
def modelVariantOutput : Str :=
  ("### Final Prompt\n```\nRole: Senior Prompt Engineer\nObjective: Build a strong prompt\nContext: Donation landing page\nConstraints: Keep clear sections\nOutput Format: markdown\nQuality Criteria: conversion-focused and readable\nFailure Handling: ask follow-up questions when needed\n```\n### Adapter\n```text\nUse concise style for Gemini.\n```\n### Optimization Notes\n- Structured for production.\n- Deterministic sections.\n- Transferable format.\n### Quality Checklist\n- Role: Yes\n- Objective: Yes\n- Context: Yes\n- Constraints: Yes\n- Output Format: Yes\n- Quality Criteria: Yes\n- Failure Handling: Yes").data

/-- An artifact with all four canonical headings and a core code block
holding the first six contract labels but no Failure Handling line. -/
def sixLabelArtifact : Str :=
  ("## Final Prompt (Universal Core)\n```text\nRole: r\nObjective: o\nContext: c\nConstraints: k\nOutput Format: f\nQuality Criteria: q\n```\n## Adapter Block (Target: Universal)\n## Why This Prompt Is Powerful\n## Prompt Contract Checklist").data

/-- Attempt oracle whose first attempt fails with HTTP 503 and whose second
streams an empty body. -/
def atts503then200 : Nat → ConnectionOutcome
  | 1 => .response 503 none ("Service Unavailable.").data
  | _ => .response 200 (some []) []

/-- Attempt oracle that always fails with HTTP 404. -/
def atts404 : Nat → ConnectionOutcome :=
  fun _ => .response 404 none ("Not Found.").data

/-- A JSON parser stub for witnesses whose streams carry no events. -/
def jpNone : Str → Option JSValue := fun _ => none

/-- Environment configuring only the provider URL. -/
def envUrlOnly : EnvSource :=
  [(("OPENAI_COMPATIBLE_URL").data, ("http://localhost/v1/chat/completions").data)]

/-- The provider configuration resolved from `envUrlOnly`. -/
def cfgUrlOnly : ProviderConfig :=
  { apiKey := none
    model := ("gpt-4o-mini").data
    url := ("http://localhost/v1/chat/completions").data }

/-- An empty payload record (no messages, nothing requested). -/
def emptyPayload : GenerateRequestPayload :=
  { messages := [], mode := none, targetAgent := none, stabilityProfile := none }

theorem findDoubleNewlineSplit_sound :
    ∀ b pre post, findDoubleNewlineSplit b = some (pre, post) →
      b = pre ++ '\n' :: '\n' :: post := by
  intro b
  induction b with
  | nil => intro pre post h; simp [findDoubleNewlineSplit] at h
  | cons c1 rest ih =>
    intro pre post h
    cases rest with
    | nil => simp [findDoubleNewlineSplit] at h
    | cons c2 r =>
      rw [findDoubleNewlineSplit] at h
      by_cases hnn : c1 = '\n' ∧ c2 = '\n'
      · rw [if_pos hnn] at h
        simp at h
        simp [h.1, h.2, hnn.1, hnn.2]
      · rw [if_neg hnn] at h
        cases hsub : findDoubleNewlineSplit (c2 :: r) with
        | none => rw [hsub] at h; simp at h
        | some pp =>
          obtain ⟨p1, p2⟩ := pp
          rw [hsub] at h
          simp at h
          obtain ⟨hp, hq⟩ := h
          subst hp; subst hq
          have := ih p1 p2 hsub
          simp [this]

theorem findDoubleNewlineSplit_shrinks {b pre post : Str}
    (h : findDoubleNewlineSplit b = some (pre, post)) :
    post.length < b.length := by
  have hb := findDoubleNewlineSplit_sound b pre post h
  rw [hb]
  simp [List.length_append]
  omega


theorem consumeSseEventsGo_fuel_irrelevant :
    ∀ fuel b, (b : Str).length ≤ fuel →
      consumeSseEventsGo fuel b = consumeSseEventsGo b.length b := by
  have key : ∀ fuel fuel2 b, (b : Str).length ≤ fuel → b.length ≤ fuel2 →
      consumeSseEventsGo fuel b = consumeSseEventsGo fuel2 b := by
    intro fuel
    induction fuel with
    | zero =>
      intro fuel2 b hb _
      have hb0 : b = [] := List.length_eq_zero.mp (Nat.le_zero.mp hb)
      subst hb0
      cases fuel2 with
      | zero => rfl
      | succ m => simp [consumeSseEventsGo, findDoubleNewlineSplit]
    | succ n ih =>
      intro fuel2 b hb hb2
      cases fuel2 with
      | zero =>
        have hb0 : b = [] := List.length_eq_zero.mp (Nat.le_zero.mp hb2)
        subst hb0
        simp [consumeSseEventsGo, findDoubleNewlineSplit]
      | succ m =>
        cases h : findDoubleNewlineSplit b with
        | none => simp [consumeSseEventsGo, h]
        | some pp =>
          obtain ⟨seg, rest⟩ := pp
          have hlen := findDoubleNewlineSplit_shrinks h
          simp only [consumeSseEventsGo, h]
          rw [ih m rest (by omega) (by omega)]
  intro fuel b hb
  exact key fuel b.length b hb (Nat.le_refl _)

theorem consumeSseEvents_reconstruct_aux :
    ∀ fuel b, (b : Str).length ≤ fuel →
      ∃ segs : List Str,
        b = joinStrs (segs.map (fun s => s ++ ['\n', '\n'])) ++
              (consumeSseEventsGo fuel b).2 ∧
        (consumeSseEventsGo fuel b).1 = segs.filterMap
          (fun s => if (jsTrim s).isEmpty then none else some (jsTrim s)) := by
  intro fuel
  induction fuel with
  | zero =>
    intro b hb
    exact ⟨[], by simp [consumeSseEventsGo, joinStrs], by simp [consumeSseEventsGo]⟩
  | succ n ih =>
    intro b hb
    cases h : findDoubleNewlineSplit b with
    | none =>
      refine ⟨[], ?_, ?_⟩
      · simp [consumeSseEventsGo, h, joinStrs]
      · simp [consumeSseEventsGo, h]
    | some pp =>
      obtain ⟨seg, rest⟩ := pp
      have hlen := findDoubleNewlineSplit_shrinks h
      have hrest : rest.length ≤ n := by omega
      obtain ⟨segs, h1, h2⟩ := ih rest hrest
      refine ⟨seg :: segs, ?_, ?_⟩
      · simp only [consumeSseEventsGo, h]
        have hb2 := findDoubleNewlineSplit_sound b seg rest h
        simp only [List.map_cons, joinStrs]
        rw [hb2]
        conv_lhs => rw [h1]
        simp
      · simp only [consumeSseEventsGo, h]
        cases htrim : jsTrim seg with
        | nil => simp [htrim, h2, List.filterMap_cons]
        | cons c cs => simp [htrim, h2, List.filterMap_cons]

/-- C2 amended: the decoder consumes the `"\n\n"` delimiters and trims each
frame, so the input is reproduced by re-inserting a delimiter after every raw
segment (not by plain concatenation); the emitted frames are exactly the
non-empty trimmed segments, in arrival order, so no content is dropped,
duplicated or reordered beyond delimiter removal and edge-whitespace
trimming. -/
theorem consumeSseEvents_reconstructs_with_delimiters (b : Str) :
    ∃ segs : List Str,
      b = joinStrs (segs.map (fun s => s ++ ['\n', '\n'])) ++ (consumeSseEvents b).2 ∧
      (consumeSseEvents b).1 = segs.filterMap
        (fun s => if (jsTrim s).isEmpty then none else some (jsTrim s)) :=
  consumeSseEvents_reconstruct_aux b.length b (Nat.le_refl _)

/-- C2 counterexample: on the buffer `"a\n\nb"` the decoder emits the frame
`"a"` and remainder `"b"`, and concatenating all emitted frame content plus
the final remainder gives `"ab"`, which is not the original input. -/
theorem consumeSseEvents_concat_counterexample :
    consumeSseEvents ("a\n\nb").data = ([("a").data], ("b").data) ∧
    joinStrs (consumeSseEvents ("a\n\nb").data).1 ++ (consumeSseEvents ("a\n\nb").data).2 ≠
      ("a\n\nb").data := by
  constructor
  · decide
  · decide

theorem resolveStabilityProfile_none (d : PromptStabilityProfile) :
    resolveStabilityProfile none (some d) = d := by
  cases d <;> rfl

/-- C4: the payload parser validates `messages`, `mode` and `targetAgent`
but never copies `stabilityProfile` into the normalized payload, so every
successfully parsed payload carries no stability profile and the engine's
`resolveStabilityProfile` always resolves to the environment default rather
than the caller-requested value. -/
theorem parseDropsRequestedStabilityProfile :
    ∀ v p, parseGenerateRequestPayload v = some p →
      p.stabilityProfile = none ∧
      ∀ env, resolveStabilityProfile p.stabilityProfile
          (some (getDefaultStabilityProfileFromEnv env)) =
        getDefaultStabilityProfileFromEnv env := by
  intro v p h
  have hnone : p.stabilityProfile = none := by
    cases v with
    | vNull => simp [parseGenerateRequestPayload] at h
    | vBool b => simp [parseGenerateRequestPayload] at h
    | vNum n => simp [parseGenerateRequestPayload] at h
    | vStr s => simp [parseGenerateRequestPayload] at h
    | vArr items => simp [parseGenerateRequestPayload, getField] at h
    | vObj fields =>
      simp only [parseGenerateRequestPayload, getField] at h
      rcases hm : lookupField fields ("messages").data with _ | mv
      · rw [hm] at h; simp at h
      · rw [hm] at h
        cases mv with
        | vArr msgs =>
          repeat split at h
          all_goals simp_all
          subst h
          rfl
        | vNull => simp at h
        | vBool b => simp at h
        | vNum n => simp at h
        | vStr s => simp at h
        | vObj f2 => simp at h
  refine ⟨hnone, ?_⟩
  intro env
  rw [hnone]
  exact resolveStabilityProfile_none _

theorem parseDropsRequestedStabilityProfile_witness :
    parseGenerateRequestPayload strictProfileBody = some strictProfileParsed ∧
    strictProfileParsed.stabilityProfile = none ∧
    resolveStabilityProfile strictProfileParsed.stabilityProfile
        (some (getDefaultStabilityProfileFromEnv [])) =
      getDefaultStabilityProfileFromEnv [] :=
  ⟨by decide,
   (parseDropsRequestedStabilityProfile strictProfileBody strictProfileParsed
      (by decide)).1,
   (parseDropsRequestedStabilityProfile strictProfileBody strictProfileParsed
      (by decide)).2 []⟩

/-- C10: every request body whose `targetAgent` field is the string
`chatgpt` is rejected by `parseGenerateRequestPayload` (the generate
endpoint then answers 400), even though `chatgpt` is a declared member of
`TARGET_AGENTS`; the accepted values are exactly `universal`, `gemini`,
`claude-code`, `kiro` and `kimi`. -/
theorem parseRejectsChatgptTargetAgent :
    (∀ fields, lookupField fields ("targetAgent").data =
        some (.vStr ("chatgpt").data) →
      parseGenerateRequestPayload (.vObj fields) = none) ∧
    isTargetAgent (.vStr ("chatgpt").data) = false ∧
    TargetAgent.chatgpt ∈ TARGET_AGENTS ∧
    (∀ s, isTargetAgent (.vStr s) = true ↔
      (s = ("universal").data ∨ s = ("gemini").data ∨ s = ("claude-code").data ∨
       s = ("kiro").data ∨ s = ("kimi").data)) := by
  refine ⟨?_, by decide, by decide, ?_⟩
  · intro fields h
    simp only [parseGenerateRequestPayload, getField]
    rcases hm : lookupField fields ("messages").data with _ | mv
    · simp
    · cases mv with
      | vArr msgs =>
        simp only []
        by_cases hA : msgs.all isMessage = true
        · simp only [hA, if_true]
          by_cases hB : (lookupField fields ("mode").data).all
              isPromptGenerationMode = true
          · simp only [hB, if_true, h]
            simp [show isTargetAgent (.vStr ("chatgpt").data) = false from by decide]
          · simp [hB]
        · simp [hA]
      | vNull => simp
      | vBool b => simp
      | vNum n => simp
      | vStr s => simp
      | vObj f2 => simp
  · intro s
    simp [isTargetAgent]

theorem parseRejectsChatgptTargetAgent_witness :
    parseGenerateRequestPayload (.vObj chatgptFields) = none :=
  parseRejectsChatgptTargetAgent.1 chatgptFields (by rfl)

/-- C1: the synthesized fallback does not always survive validation.  With
the user request `"```"` (left unescaped by `buildFallbackCanonicalOutput`,
unlike the draft extract) the interpolated backticks close the core fenced
block early, so the contract body loses five labels and
`validate(normalize(fallback))` reports `isValid = false`. -/
theorem fallbackValidationFailsOnBacktickUserRequest :
    (validateGeneratedPromptOutput
      (normalizeGeneratedPromptOutput
        (buildFallbackCanonicalOutput [] (("```").data) .universal) .universal)
      .universal).isValid = false ∧
    (validateGeneratedPromptOutput
      (normalizeGeneratedPromptOutput
        (buildFallbackCanonicalOutput [] (("```").data) .universal) .universal)
      .universal).missingContractItems =
      [("Context").data, ("Constraints").data, ("Output Format").data,
       ("Quality Criteria").data, ("Failure Handling").data] := by
  constructor
  · decide
  · decide

/-- C3 counterexample: normalization is not idempotent.  On a document with
two core headings each followed by a `js` fence, the first application
rewrites only the first fence (the fence rewrite replaces one occurrence),
so a second application changes the result again. -/
theorem normalizeNotIdempotentOnRepeatedFences :
    normalizeGeneratedPromptOutput
        (normalizeGeneratedPromptOutput repeatedFenceInput .universal) .universal ≠
      normalizeGeneratedPromptOutput repeatedFenceInput .universal := by
  decide

/-- C3 amended: a second normalization pass differs from the first only at
later unrecognized fences under repeated core headings; on a
single-artifact draft such as the repository's own model-variant test
fixture, applying normalization twice equals applying it once. -/
theorem normalizeIdempotentOnModelVariantFixture :
    normalizeGeneratedPromptOutput
        (normalizeGeneratedPromptOutput modelVariantOutput .gemini) .gemini =
      normalizeGeneratedPromptOutput modelVariantOutput .gemini := by
  decide

/-- C5: whenever all four canonical headings match, the core section holds a
fenced code block, the contract body matches the item pattern for the six
labels other than Failure Handling, and no line of the contract body matches
the `(optional bullet/number prefix) Failure Handling:` pattern, the
validator reports exactly `missingContractItems = ["Failure Handling"]` and
`isValid = false`. -/
theorem validateMissingFailureHandlingOnly (output : Str) (t : TargetAgent)
    (hHeads : ∀ h ∈ [FINAL_PROMPT_HEADING, buildAdapterHeading t, WHY_HEADING,
        CHECKLIST_HEADING], testHeadingLine h output = true)
    (hBlock : (findCodeBlock (extractFinalPromptSection output)).isSome = true)
    (hSix : ∀ item ∈ REQUIRED_PROMPT_CONTRACT_ITEMS,
        item ≠ ("Failure Handling").data →
        testContractItem item (extractCorePromptText output) = true)
    (hFH : testContractItem (("Failure Handling").data)
        (extractCorePromptText output) = false) :
    validateGeneratedPromptOutput output t =
      { isValid := false
        missingHeadings := []
        missingContractItems := [("Failure Handling").data]
        missingTextCodeBlock := false } := by
  have h1 := hHeads FINAL_PROMPT_HEADING (by simp)
  have h2 := hHeads (buildAdapterHeading t) (by simp)
  have h3 := hHeads WHY_HEADING (by simp)
  have h4 := hHeads CHECKLIST_HEADING (by simp)
  have hRole := hSix (("Role").data) (by simp [REQUIRED_PROMPT_CONTRACT_ITEMS])
    (by decide)
  have hObj := hSix (("Objective").data) (by simp [REQUIRED_PROMPT_CONTRACT_ITEMS])
    (by decide)
  have hCtx := hSix (("Context").data) (by simp [REQUIRED_PROMPT_CONTRACT_ITEMS])
    (by decide)
  have hCon := hSix (("Constraints").data) (by simp [REQUIRED_PROMPT_CONTRACT_ITEMS])
    (by decide)
  have hOut := hSix (("Output Format").data) (by simp [REQUIRED_PROMPT_CONTRACT_ITEMS])
    (by decide)
  have hQual := hSix (("Quality Criteria").data) (by simp [REQUIRED_PROMPT_CONTRACT_ITEMS])
    (by decide)
  obtain ⟨blk, hblk⟩ := Option.isSome_iff_exists.mp hBlock
  simp only [validateGeneratedPromptOutput, REQUIRED_PROMPT_CONTRACT_ITEMS,
    List.filter, h1, h2, h3, h4, hRole, hObj, hCtx, hCon, hOut, hQual, hFH,
    hblk]
  simp

theorem validateMissingFailureHandlingOnly_witness :
    validateGeneratedPromptOutput sixLabelArtifact .universal =
      { isValid := false
        missingHeadings := []
        missingContractItems := [("Failure Handling").data]
        missingTextCodeBlock := false } :=
  validateMissingFailureHandlingOnly sixLabelArtifact .universal
    (by decide) (by decide) (by decide) (by decide)

theorem requestCompletionGo_ok {jp : Str → Option JSValue}
    {attempts : Nat → ConnectionOutcome} {base maxAttempts attempt remaining : Nat}
    {sleeps : List Nat} {s : Str}
    (h : requestOnce jp (attempts attempt) = .ok s) :
    requestCompletionGo jp attempts base maxAttempts attempt (remaining + 1) sleeps =
      { result := .ok s, attemptsMade := attempt, sleeps := sleeps } := by
  simp only [requestCompletionGo, h]

theorem requestCompletionGo_retry {jp : Str → Option JSValue}
    {attempts : Nat → ConnectionOutcome} {base maxAttempts attempt remaining : Nat}
    {sleeps : List Nat} {e : ProviderRequestError}
    (h : requestOnce jp (attempts attempt) = .error e)
    (hlast : ¬maxAttempts ≤ attempt) (htrans : isTransientError e = true) :
    requestCompletionGo jp attempts base maxAttempts attempt (remaining + 1) sleeps =
      requestCompletionGo jp attempts base maxAttempts (attempt + 1) remaining
        (sleeps ++ [min (base * attempt) 2000]) := by
  simp only [requestCompletionGo, h]
  rw [if_neg]
  exact fun hcontra => hcontra.elim hlast (fun hc => hc htrans)

theorem requestCompletionGo_fatal {jp : Str → Option JSValue}
    {attempts : Nat → ConnectionOutcome} {base maxAttempts attempt remaining : Nat}
    {sleeps : List Nat} {e : ProviderRequestError}
    (h : requestOnce jp (attempts attempt) = .error e)
    (hstop : maxAttempts ≤ attempt ∨ isTransientError e = false) :
    requestCompletionGo jp attempts base maxAttempts attempt (remaining + 1) sleeps =
      { result := .error e, attemptsMade := attempt, sleeps := sleeps } := by
  simp only [requestCompletionGo, h]
  rw [if_pos]
  rcases hstop with hs | hs
  · exact Or.inl hs
  · exact Or.inr (by simp [hs])

/-- C6: with `maxRetries = 1` and a transient failure on the first attempt,
the executor makes exactly two attempts, sleeps
`min(retryBaseDelayMs * 1, 2000)` before the retry, and returns exactly the
text of the second attempt — nothing accumulated by the failed attempt is
carried over. -/
theorem executorRetriesOnceOnTransientFailure
    (jp : Str → Option JSValue) (attempts : Nat → ConnectionOutcome)
    (base : Nat) (e : ProviderRequestError) (s : Str)
    (h1 : requestOnce jp (attempts 1) = .error e)
    (h2 : isTransientError e = true)
    (h3 : requestOnce jp (attempts 2) = .ok s) :
    requestOpenAICompatibleCompletion jp attempts 1 base =
      { result := .ok s, attemptsMade := 2, sleeps := [min (base * 1) 2000] } := by
  have step1 : requestOpenAICompatibleCompletion jp attempts 1 base =
      requestCompletionGo jp attempts base 2 1 (0 + 1 + 1) [] := rfl
  rw [step1, requestCompletionGo_retry h1 (by omega) h2,
    requestCompletionGo_ok h3]
  simp

theorem executorRetriesOnceOnTransientFailure_witness :
    requestOpenAICompatibleCompletion jpNone atts503then200 1 350 =
      { result := .ok [], attemptsMade := 2, sleeps := [350] } :=
  (executorRetriesOnceOnTransientFailure jpNone atts503then200 350
      (toProviderError ("Service Unavailable.").data (some 503) true) []
      (by decide) (by decide) (by decide)).trans (by decide)

/-- C7 counterexample: a thrown connection failure with message `"boom"` is
classified transient although its message does not match the network/timeout
keyword pattern and it carries no HTTP status, so transiency is not
equivalent to (pattern match or transient status). -/
theorem transientClassificationCounterexample :
    requestOnce jpNone (.thrownOther ("boom").data) =
      .error (toProviderError ("boom").data none true) ∧
    isTransientError (toProviderError ("boom").data none true) = true ∧
    testTransientMessagePattern
        (toProviderError ("boom").data none true).message = false ∧
    (toProviderError ("boom").data none true).statusCode = none ∧
    isTransientError (toProviderError ("boom").data none true) ≠
      (testTransientMessagePattern (toProviderError ("boom").data none true).message ||
       isTransientStatusCode (toProviderError ("boom").data none true).statusCode) := by
  refine ⟨by decide, by decide, by decide, by decide, by decide⟩

/-- C7 amended: transiency classification per failure family.  An HTTP-status
failure is transient exactly when its status is transient (408, 425, 429 or
at least 500) or its message matches the keyword pattern; a received error
event is transient exactly when its message matches the pattern; a thrown
connection failure is always transient; the missing-body failure is fatal;
and any non-transient failure of the first attempt is propagated immediately
with exactly one attempt and no retry sleep. -/
theorem transientClassificationAmended :
    (∀ st m, isTransientError
        (toProviderError m (some st) (isTransientStatusCode (some st))) =
      (isTransientStatusCode (some st) || testTransientMessagePattern m)) ∧
    (∀ m, isTransientError
        (toProviderError m none (testTransientMessagePattern m)) =
      testTransientMessagePattern m) ∧
    (∀ m, isTransientError (toProviderError m none true) = true) ∧
    isTransientError (toProviderError
      ("No response stream returned by provider.").data none false) = false ∧
    (∀ jp attempts maxRetries base e,
      requestOnce jp (attempts 1) = .error e →
      isTransientError e = false →
      requestOpenAICompatibleCompletion jp attempts maxRetries base =
        { result := .error e, attemptsMade := 1, sleeps := [] }) := by
  refine ⟨fun st m => rfl, fun m => by simp [isTransientError, toProviderError],
    fun m => by simp [isTransientError, toProviderError], by decide, ?_⟩
  intro jp attempts maxRetries base e h1 h2
  have hmax : requestOpenAICompatibleCompletion jp attempts maxRetries base =
      requestCompletionGo jp attempts base (max 1 (maxRetries + 1)) 1
        (max 1 (maxRetries + 1)) [] := rfl
  rw [hmax]
  have hm : max 1 (maxRetries + 1) = maxRetries + 1 := by omega
  rw [hm]
  exact requestCompletionGo_fatal h1 (Or.inr h2)

theorem transientClassificationAmended_witness :
    requestOpenAICompatibleCompletion jpNone atts404 5 350 =
      { result := .error (toProviderError ("Not Found.").data (some 404) false)
        attemptsMade := 1
        sleeps := [] } :=
  transientClassificationAmended.2.2.2.2 jpNone atts404 5 350
    (toProviderError ("Not Found.").data (some 404) false) (by decide) (by decide)

theorem lookupEntry_setEntry (store : RateLimitStore) (key : Str)
    (e : RateLimitEntry) : lookupEntry (setEntry store key e) key = some e := by
  induction store with
  | nil => simp [setEntry, lookupEntry]
  | cons kv rest ih =>
    obtain ⟨k, old⟩ := kv
    by_cases hk : k = key
    · simp [setEntry, lookupEntry, hk]
    · simp [setEntry, lookupEntry, hk, ih]

/-- C8: with a limit of 3 per 60-second window, four calls for the same key
inside one window are allowed, allowed, allowed, denied, the fourth
reporting zero remaining; every result carries the remaining count and a
positive seconds-until-reset; and for an existing entry of a well-formed
store (positive count, limit at least 2) the call installs a fresh
`count = 1` window exactly when the current time has reached the entry's
reset timestamp. -/
theorem rateLimitFixedWindowBehaviour :
    (∀ (keyPrefix clientIp : Str) (t1 t2 t3 t4 : Nat),
      t1 ≤ t2 → t2 ≤ t3 → t3 ≤ t4 → t4 < t1 + 60000 →
      (checkRateLimit [] t1 keyPrefix clientIp 3 60000).1 =
        { allowed := true, retryAfterSeconds := 60, limit := 3, remaining := 2 } ∧
      ((checkRateLimit (checkRateLimit [] t1 keyPrefix clientIp 3 60000).2
          t2 keyPrefix clientIp 3 60000).1.allowed = true ∧
       (checkRateLimit (checkRateLimit [] t1 keyPrefix clientIp 3 60000).2
          t2 keyPrefix clientIp 3 60000).1.remaining = 1 ∧
       1 ≤ (checkRateLimit (checkRateLimit [] t1 keyPrefix clientIp 3 60000).2
          t2 keyPrefix clientIp 3 60000).1.retryAfterSeconds) ∧
      ((checkRateLimit (checkRateLimit (checkRateLimit [] t1 keyPrefix clientIp
            3 60000).2 t2 keyPrefix clientIp 3 60000).2
          t3 keyPrefix clientIp 3 60000).1.allowed = true ∧
       (checkRateLimit (checkRateLimit (checkRateLimit [] t1 keyPrefix clientIp
            3 60000).2 t2 keyPrefix clientIp 3 60000).2
          t3 keyPrefix clientIp 3 60000).1.remaining = 0 ∧
       1 ≤ (checkRateLimit (checkRateLimit (checkRateLimit [] t1 keyPrefix
            clientIp 3 60000).2 t2 keyPrefix clientIp 3 60000).2
          t3 keyPrefix clientIp 3 60000).1.retryAfterSeconds) ∧
      ((checkRateLimit (checkRateLimit (checkRateLimit (checkRateLimit []
            t1 keyPrefix clientIp 3 60000).2 t2 keyPrefix clientIp 3 60000).2
            t3 keyPrefix clientIp 3 60000).2
          t4 keyPrefix clientIp 3 60000).1.allowed = false ∧
       (checkRateLimit (checkRateLimit (checkRateLimit (checkRateLimit []
            t1 keyPrefix clientIp 3 60000).2 t2 keyPrefix clientIp 3 60000).2
            t3 keyPrefix clientIp 3 60000).2
          t4 keyPrefix clientIp 3 60000).1.remaining = 0 ∧
       1 ≤ (checkRateLimit (checkRateLimit (checkRateLimit (checkRateLimit []
            t1 keyPrefix clientIp 3 60000).2 t2 keyPrefix clientIp 3 60000).2
            t3 keyPrefix clientIp 3 60000).2
          t4 keyPrefix clientIp 3 60000).1.retryAfterSeconds)) ∧
    (∀ (store : RateLimitStore) (now : Nat) (keyPrefix clientIp : Str)
        (limit windowMs : Nat) (entry : RateLimitEntry),
      lookupEntry (cleanupRateLimitStore now store)
          (keyPrefix ++ (":").data ++ clientIp) = some entry →
      1 ≤ entry.count → 2 ≤ limit →
      (lookupEntry (checkRateLimit store now keyPrefix clientIp limit windowMs).2
          (keyPrefix ++ (":").data ++ clientIp) =
        some { count := 1, resetAt := now + windowMs } ↔
       entry.resetAt ≤ now)) := by
  constructor
  · intro keyPrefix clientIp t1 t2 t3 t4 h12 h23 h34 h4w
    have hn2 : ¬(t1 + 60000 ≤ t2) := by omega
    have hn3 : ¬(t1 + 60000 ≤ t3) := by omega
    have hn4 : ¬(t1 + 60000 ≤ t4) := by omega
    have hc1 : checkRateLimit [] t1 keyPrefix clientIp 3 60000 =
        ({ allowed := true, retryAfterSeconds := 60, limit := 3, remaining := 2 },
         [(keyPrefix ++ (":").data ++ clientIp,
           { count := 1, resetAt := t1 + 60000 })]) := by
      simp [checkRateLimit, cleanupRateLimitStore, lookupEntry, setEntry, ceilDiv]
    have hc2 : checkRateLimit [(keyPrefix ++ (":").data ++ clientIp,
          { count := 1, resetAt := t1 + 60000 })] t2 keyPrefix clientIp 3 60000 =
        ({ allowed := true
           retryAfterSeconds := max (ceilDiv (t1 + 60000 - t2) 1000) 1
           limit := 3, remaining := 1 },
         [(keyPrefix ++ (":").data ++ clientIp,
           { count := 2, resetAt := t1 + 60000 })]) := by
      simp [checkRateLimit, cleanupRateLimitStore, lookupEntry, setEntry, hn2]
    have hc3 : checkRateLimit [(keyPrefix ++ (":").data ++ clientIp,
          { count := 2, resetAt := t1 + 60000 })] t3 keyPrefix clientIp 3 60000 =
        ({ allowed := true
           retryAfterSeconds := max (ceilDiv (t1 + 60000 - t3) 1000) 1
           limit := 3, remaining := 0 },
         [(keyPrefix ++ (":").data ++ clientIp,
           { count := 3, resetAt := t1 + 60000 })]) := by
      simp [checkRateLimit, cleanupRateLimitStore, lookupEntry, setEntry, hn3]
    have hc4 : checkRateLimit [(keyPrefix ++ (":").data ++ clientIp,
          { count := 3, resetAt := t1 + 60000 })] t4 keyPrefix clientIp 3 60000 =
        ({ allowed := false
           retryAfterSeconds := max (ceilDiv (t1 + 60000 - t4) 1000) 1
           limit := 3, remaining := 0 },
         [(keyPrefix ++ (":").data ++ clientIp,
           { count := 3, resetAt := t1 + 60000 })]) := by
      simp [checkRateLimit, cleanupRateLimitStore, lookupEntry, setEntry, hn4]
    rw [hc1]
    refine ⟨rfl, ?_, ?_, ?_⟩
    · rw [hc2]
      exact ⟨rfl, rfl, Nat.le_max_right _ _⟩
    · rw [hc2, hc3]
      exact ⟨rfl, rfl, Nat.le_max_right _ _⟩
    · rw [hc2, hc3, hc4]
      exact ⟨rfl, rfl, Nat.le_max_right _ _⟩
  · intro store now keyPrefix clientIp limit windowMs entry hlook hcount hlimit
    simp only [checkRateLimit, hlook]
    by_cases hreset : entry.resetAt ≤ now
    · rw [if_pos hreset]
      exact iff_of_true (lookupEntry_setEntry _ _ _) hreset
    · rw [if_neg hreset]
      by_cases hden : limit ≤ entry.count
      · rw [if_pos hden]
        refine iff_of_false ?_ hreset
        intro hcontra
        rw [hlook] at hcontra
        have : entry.count = 1 :=
          congrArg RateLimitEntry.count (Option.some.inj hcontra)
        omega
      · rw [if_neg hden]
        refine iff_of_false ?_ hreset
        intro hcontra
        have hset := lookupEntry_setEntry (cleanupRateLimitStore now store)
          (keyPrefix ++ (":").data ++ clientIp)
          { count := entry.count + 1, resetAt := entry.resetAt }
        rw [hset] at hcontra
        have : entry.count + 1 = 1 :=
          congrArg RateLimitEntry.count (Option.some.inj hcontra)
        omega

theorem rateLimitFixedWindowBehaviour_witness :
    (checkRateLimit [] 1000 ("generate").data ("1.2.3.4").data 3 60000).1 =
      { allowed := true, retryAfterSeconds := 60, limit := 3, remaining := 2 } ∧
    (checkRateLimit (checkRateLimit [] 1000 ("generate").data ("1.2.3.4").data
        3 60000).2 2000 ("generate").data ("1.2.3.4").data 3 60000).1.allowed
      = true ∧
    (checkRateLimit (checkRateLimit (checkRateLimit (checkRateLimit []
        1000 ("generate").data ("1.2.3.4").data 3 60000).2
        2000 ("generate").data ("1.2.3.4").data 3 60000).2
        3000 ("generate").data ("1.2.3.4").data 3 60000).2
        4000 ("generate").data ("1.2.3.4").data 3 60000).1.allowed = false ∧
    (checkRateLimit (checkRateLimit (checkRateLimit (checkRateLimit []
        1000 ("generate").data ("1.2.3.4").data 3 60000).2
        2000 ("generate").data ("1.2.3.4").data 3 60000).2
        3000 ("generate").data ("1.2.3.4").data 3 60000).2
        4000 ("generate").data ("1.2.3.4").data 3 60000).1.remaining = 0 ∧
    (lookupEntry (checkRateLimit [(("generate:1.2.3.4").data,
          { count := 2, resetAt := 5000 })] 9000 ("generate").data
          ("1.2.3.4").data 3 60000).2
        (("generate").data ++ (":").data ++ ("1.2.3.4").data) =
        some { count := 1, resetAt := 9000 + 60000 } ↔
      ({ count := 2, resetAt := 5000 } : RateLimitEntry).resetAt ≤ 9000) := by
  have h1 := rateLimitFixedWindowBehaviour.1 ("generate").data ("1.2.3.4").data
    1000 2000 3000 4000 (by omega) (by omega) (by omega) (by omega)
  have h2 := rateLimitFixedWindowBehaviour.2
    [(("generate:1.2.3.4").data, { count := 2, resetAt := 5000 })] 9000
    ("generate").data ("1.2.3.4").data 3 60000 { count := 2, resetAt := 5000 }
    (by decide) (by decide) (by decide)
  exact ⟨h1.1, h1.2.1.1, h1.2.2.2.1, h1.2.2.2.2.1, h2⟩

/-- C9: when the initial output is invalid, auto-repair is enabled, and the
repair completion call fails, the engine swallows the error unconditionally:
it still returns successfully, the repair step leaves the prior normalized
output and validation unchanged, `repaired` stays false, the repair call is
invoked exactly once (never retried), and control falls through to the
canonical fallback built from the pre-repair output and the last user
message. -/
theorem repairFailureSwallowedFallsThroughToFallback
    (env : EnvSource) (payload : GenerateRequestPayload) (ctx : List Message)
    (raw : Str) (e : ProviderRequestError) (cfg : ProviderConfig)
    (hcfg : getOpenAICompatibleConfig env = .ok cfg)
    (hrepairOn : shouldUseAutoRepair env = true)
    (hinvalid : (validateGeneratedPromptOutput
        (normalizeGeneratedPromptOutput raw
          (payload.targetAgent.getD DEFAULT_TARGET_AGENT))
        (payload.targetAgent.getD DEFAULT_TARGET_AGENT)).isValid = false) :
    generatePromptArtifact env payload ctx (.ok raw) (.error e) =
      .ok ({ output := normalizeGeneratedPromptOutput
               (buildFallbackCanonicalOutput
                 (normalizeGeneratedPromptOutput raw
                   (payload.targetAgent.getD DEFAULT_TARGET_AGENT))
                 (getLastUserMessage ctx)
                 (payload.targetAgent.getD DEFAULT_TARGET_AGENT))
               (payload.targetAgent.getD DEFAULT_TARGET_AGENT)
             stabilityProfile := resolveStabilityProfile payload.stabilityProfile
               (some (getDefaultStabilityProfileFromEnv env))
             repaired := false
             validation := validateGeneratedPromptOutput
               (normalizeGeneratedPromptOutput
                 (buildFallbackCanonicalOutput
                   (normalizeGeneratedPromptOutput raw
                     (payload.targetAgent.getD DEFAULT_TARGET_AGENT))
                   (getLastUserMessage ctx)
                   (payload.targetAgent.getD DEFAULT_TARGET_AGENT))
                 (payload.targetAgent.getD DEFAULT_TARGET_AGENT))
               (payload.targetAgent.getD DEFAULT_TARGET_AGENT) }, 1) := by
  have hrepair : repairStage env (payload.targetAgent.getD DEFAULT_TARGET_AGENT)
      (.error e)
      (normalizeGeneratedPromptOutput raw
        (payload.targetAgent.getD DEFAULT_TARGET_AGENT))
      (validateGeneratedPromptOutput
        (normalizeGeneratedPromptOutput raw
          (payload.targetAgent.getD DEFAULT_TARGET_AGENT))
        (payload.targetAgent.getD DEFAULT_TARGET_AGENT)) =
      (normalizeGeneratedPromptOutput raw
        (payload.targetAgent.getD DEFAULT_TARGET_AGENT),
       validateGeneratedPromptOutput
        (normalizeGeneratedPromptOutput raw
          (payload.targetAgent.getD DEFAULT_TARGET_AGENT))
        (payload.targetAgent.getD DEFAULT_TARGET_AGENT), false, 1) := by
    unfold repairStage
    rw [if_pos (by rw [hinvalid, hrepairOn]; rfl)]
  have hfb : fallbackStage ctx (payload.targetAgent.getD DEFAULT_TARGET_AGENT)
      (normalizeGeneratedPromptOutput raw
        (payload.targetAgent.getD DEFAULT_TARGET_AGENT))
      (validateGeneratedPromptOutput
        (normalizeGeneratedPromptOutput raw
          (payload.targetAgent.getD DEFAULT_TARGET_AGENT))
        (payload.targetAgent.getD DEFAULT_TARGET_AGENT)) =
      (normalizeGeneratedPromptOutput
        (buildFallbackCanonicalOutput
          (normalizeGeneratedPromptOutput raw
            (payload.targetAgent.getD DEFAULT_TARGET_AGENT))
          (getLastUserMessage ctx)
          (payload.targetAgent.getD DEFAULT_TARGET_AGENT))
        (payload.targetAgent.getD DEFAULT_TARGET_AGENT),
       validateGeneratedPromptOutput
        (normalizeGeneratedPromptOutput
          (buildFallbackCanonicalOutput
            (normalizeGeneratedPromptOutput raw
              (payload.targetAgent.getD DEFAULT_TARGET_AGENT))
            (getLastUserMessage ctx)
            (payload.targetAgent.getD DEFAULT_TARGET_AGENT))
          (payload.targetAgent.getD DEFAULT_TARGET_AGENT))
        (payload.targetAgent.getD DEFAULT_TARGET_AGENT)) := by
    unfold fallbackStage
    rw [if_pos (by rw [hinvalid]; rfl)]
  unfold generatePromptArtifact
  rw [hcfg]
  simp only [hrepair, hfb]

theorem repairFailureSwallowedFallsThroughToFallback_witness :
    generatePromptArtifact envUrlOnly emptyPayload [] (.ok [])
        (.error (toProviderError ("repair failed").data none false)) =
      .ok ({ output := normalizeGeneratedPromptOutput
               (buildFallbackCanonicalOutput
                 (normalizeGeneratedPromptOutput []
                   (emptyPayload.targetAgent.getD DEFAULT_TARGET_AGENT))
                 (getLastUserMessage [])
                 (emptyPayload.targetAgent.getD DEFAULT_TARGET_AGENT))
               (emptyPayload.targetAgent.getD DEFAULT_TARGET_AGENT)
             stabilityProfile := resolveStabilityProfile
               emptyPayload.stabilityProfile
               (some (getDefaultStabilityProfileFromEnv envUrlOnly))
             repaired := false
             validation := validateGeneratedPromptOutput
               (normalizeGeneratedPromptOutput
                 (buildFallbackCanonicalOutput
                   (normalizeGeneratedPromptOutput []
                     (emptyPayload.targetAgent.getD DEFAULT_TARGET_AGENT))
                   (getLastUserMessage [])
                   (emptyPayload.targetAgent.getD DEFAULT_TARGET_AGENT))
                 (emptyPayload.targetAgent.getD DEFAULT_TARGET_AGENT))
               (emptyPayload.targetAgent.getD DEFAULT_TARGET_AGENT) }, 1) :=
  repairFailureSwallowedFallsThroughToFallback envUrlOnly emptyPayload [] []
    (toProviderError ("repair failed").data none false) cfgUrlOnly
    (by decide) (by decide) (by decide)

end PromptPipeline
